import Mathlib

/-!
# JClic.js: panels, the `Activity` reader, media bags, skins, text targets and projects

A shallow embedding of `src/src/Activity.js` (classes `ActivityPanel` and `Activity`) and of the
functions of `MediaBag.js`, `Skin.js`, `TextActivityDocument.js`, `MediaContent.js` and
`JClicProject.js` that the theorems below are about. The structure `Activity` holds the fields of
a descriptor that a panel reads; `ActivityObject` is the whole object as
`Activity.setProperties` fills it from a document.

* JavaScript numbers that carry sizes and positions are rationals (`ℚ`), so that `/ 2` is exact;
  the shuffle counter and the countdown targets of a panel are integers. Numbers read from a
  document by `Activity.setProperties` are `JSNumber`s, which include `NaN`.
* Every call the panel makes on an external collaborator (the host `ps`, the connector `bc`,
  the event sounds of the activity, the `div` element, the bags handed to `shuffle`) is
  appended, in program order, to the `log` of the panel.
-/

namespace JClic

/-! ## Value objects (`AWT.js`, `Utils.js`, `ActiveBoxContent.js`: not part of the sources read) -/

/-- The class `AWT.Point`: `new AWT.Point()` is the point `(0, 0)`. -/
structure Point where
  x : ℚ
  y : ℚ
  deriving DecidableEq

/-- The class `AWT.Dimension`. -/
structure Dimension where
  width : ℚ
  height : ℚ
  deriving DecidableEq

/-- The class `AWT.Rectangle`: `new AWT.Rectangle(x, y, w, h)` has `pos = (x, y)`,
`dim = (w, h)`. -/
structure Rectangle where
  pos : Point
  dim : Dimension
  deriving DecidableEq

/-- A JavaScript number: `NaN`, an infinity, or a finite value. -/
inductive JSNumber where
  | nan : JSNumber
  | posInf : JSNumber
  | negInf : JSNumber
  | finite (q : ℚ) : JSNumber
  deriving DecidableEq

/-- The comparison `x >= 0` on JavaScript numbers (false for `NaN`). -/
def JSNumber.isNonNegative : JSNumber → Bool
  | JSNumber.nan => false
  | JSNumber.posInf => true
  | JSNumber.negInf => false
  | JSNumber.finite q => decide (0 ≤ q)

/-- The global settings `Utils.settings` (named `K` in `Activity.js`), as far as the panel reads
them. Their values live in `Utils.js`, so they are a parameter of every function using them. -/
structure Settings where
  MINIMUM_WIDTH : ℚ
  MINIMUM_HEIGHT : ℚ
  TOUCH_DEVICE : Bool
  DEFAULT_NAME : String
  DEFAULT_MARGIN : JSNumber
  DEFAULT_BG_COLOR : String
  DEFAULT_SHUFFLES : JSNumber
  /-- `Utils.settings.BoxBase.BACK_COLOR` -/
  BACK_COLOR : String
  deriving DecidableEq

/-- A message cell (`ActiveBoxContent`). The panel only reads `mediaContent`, which is `null`
(`none`) when the message carries no media of its own. -/
structure ActiveBoxContent where
  text : String
  mediaContent : Option String
  deriving DecidableEq

/-- The names of the properties that an object created by `{}` inherits from
`Object.prototype` in a browser: the properties of the ECMAScript standard and of its annex for
web browsers. The expression `obj[k]` finds them when `obj` has no property `k` of its own. Each
of them has a value that is truthy: a built-in function, and for `__proto__` the object
`Object.prototype` itself. -/
def objectPrototypeNames : List String :=
  ["constructor", "__defineGetter__", "__defineSetter__", "hasOwnProperty", "__lookupGetter__",
    "__lookupSetter__", "isPrototypeOf", "propertyIsEnumerable", "toString", "valueOf",
    "__proto__", "toLocaleString"]

/-- The value of `this.act.messages[msgCode] || null`: `null`, a message of the descriptor, or
the value that `messages` inherits from `Object.prototype` under that name. -/
inductive MessageValue where
  | null : MessageValue
  | message (m : ActiveBoxContent) : MessageValue
  | inherited (name : String) : MessageValue
  deriving DecidableEq

/-- The connector `bc` of a panel (`BoxConnector`); the panel only calls `end()` on it. -/
structure BoxConnector where
  id : Nat
  deriving DecidableEq

/-- A bag of cells handed to `shuffle` (`ActiveBoxBag`); the panel only calls
`scrambleCells(times, fitInArea)` on it. -/
structure ActiveBoxBag where
  id : Nat
  deriving DecidableEq

/-- The fields of an `Activity` descriptor that `ActivityPanel` reads. `messages` is the object
`this.messages`, created by `{}` in the constructor, as the list of its own properties. -/
structure Activity where
  name : String
  margin : ℚ
  windowSize : Dimension
  absolutePositioned : Bool
  absolutePosition : Option Point
  maxTime : Int
  countDownTime : Bool
  maxActions : Int
  countDownActions : Bool
  bTimeCounter : Bool
  bScoreCounter : Bool
  bActionsCounter : Bool
  messages : List (String × ActiveBoxContent)
  shuffles : Int
  deriving DecidableEq

/-- One call made by the panel on an external collaborator. -/
inductive Event where
  /-- `this.bc.end()` -/
  | bcEnd : Event
  /-- `this.ps.setMsg(msg)` -/
  | setMsg : MessageValue → Event
  /-- `this.act.eventSounds.play(event)` -/
  | playEvent : String → Event
  /-- `this.ps.activityFinished(solved)` -/
  | activityFinished : Bool → Event
  /-- `this.ps.reportEndActivity(act, solved)` -/
  | reportEndActivity : Activity → Bool → Event
  /-- `this.ps.reportNewActivity(act, n)` -/
  | reportNewActivity : Activity → Int → Event
  /-- `obj.addEventListener(evt, handler)` on `this.div` -/
  | addEventListener : String → Event
  /-- `this.ps.setCounterEnabled(counter, enabled)` -/
  | setCounterEnabled : String → Bool → Event
  /-- `this.ps.setCountDown(counter, value)` -/
  | setCountDown : String → Int → Event
  /-- `abb.scrambleCells(times, fitInArea)` -/
  | scrambleCells : ActiveBoxBag → Int → Bool → Event
  /-- `Utils.HTML.css(this.div, ...)` with the rectangle given to `setBounds` -/
  | css : Rectangle → Event
  /-- `window.setTimeout(() => this.buildAccessibleComponents(), 0)` -/
  | setTimeoutBuildAccessibleComponents : Event
  deriving DecidableEq

/-- The state of an `ActivityPanel`: the fields the lifecycle reads and writes, and the `log` of
the calls made so far. -/
structure ActivityPanel where
  act : Activity
  playing : Bool
  solved : Bool
  bc : Option BoxConnector
  events : List String
  pos : Point
  dim : Dimension
  log : List Event
  deriving DecidableEq

/-- The expression `this.act.messages[msgCode] || null`: a property of `messages` itself comes
first, then a property inherited from `Object.prototype` (always truthy), and `undefined`
becomes `null`. -/
def messageOrNull (act : Activity) (msgCode : String) : MessageValue :=
  match act.messages.lookup msgCode with
  | some m => MessageValue.message m
  | none =>
    if msgCode ∈ objectPrototypeNames then MessageValue.inherited msgCode
    else MessageValue.null

/-- The constant `TOUCH_TEST_EVENT`. -/
def TOUCH_TEST_EVENT : String := "touchstart"

namespace ActivityPanel

/-- Appends calls to the log. -/
def emit (p : ActivityPanel) (es : List Event) : ActivityPanel :=
  { p with log := p.log ++ es }

/-- `setBounds(rect)`. -/
def setBounds (p : ActivityPanel) (rect : Rectangle) : ActivityPanel :=
  { p with pos := rect.pos, dim := rect.dim, log := p.log ++ [Event.css rect] }

/-- `playEvent(event)`. -/
def playEvent (p : ActivityPanel) (event : String) : ActivityPanel :=
  p.emit [Event.playEvent event]

/-- `attachEvent(obj, evt)` with `obj = this.div`. -/
def attachEvent (p : ActivityPanel) (evt : String) : ActivityPanel :=
  p.emit [Event.addEventListener evt]

/-- `attachEvents()`. -/
def attachEvents (K : Settings) (p : ActivityPanel) : ActivityPanel :=
  let p1 := p.events.foldl attachEvent p
  if !K.TOUCH_DEVICE && !p.events.contains TOUCH_TEST_EVENT then
    p1.attachEvent TOUCH_TEST_EVENT
  else p1

/-- `enableCounters(eTime, eScore, eActions)`; an omitted (`undefined`) argument is `none`. -/
def enableCounters (p : ActivityPanel) (eTime eScore eActions : Option Bool) : ActivityPanel :=
  let eTime := match eTime with
    | none => p.act.bTimeCounter
    | some b => b
  let eScore := match eScore with
    | none => p.act.bScoreCounter
    | some b => b
  let eActions := match eActions with
    | none => p.act.bActionsCounter
    | some b => b
  let p1 := p.emit [Event.setCounterEnabled "time" eTime]
  let p2 := if p1.act.countDownTime then p1.emit [Event.setCountDown "time" p1.act.maxTime] else p1
  let p3 := p2.emit [Event.setCounterEnabled "score" eScore]
  let p4 := p3.emit [Event.setCounterEnabled "actions" eActions]
  if p4.act.countDownActions then p4.emit [Event.setCountDown "actions" p4.act.maxActions] else p4

/-- `initActivity()`. -/
def initActivity (K : Settings) (p : ActivityPanel) : ActivityPanel :=
  let p1 :=
    if p.playing then
      ({ p with playing := false }).emit [Event.reportEndActivity p.act p.solved]
    else p
  let p2 := { p1 with solved := false }
  let p3 := p2.emit [Event.reportNewActivity p2.act 0]
  let p4 := attachEvents K p3
  enableCounters p4 none none none

/-- `startActivity()`. -/
def startActivity (p : ActivityPanel) : ActivityPanel :=
  { p with playing := true }

/-- `setDimension(maxSize)`. -/
def setDimension (p : ActivityPanel) (maxSize : Dimension) : Dimension :=
  ⟨min maxSize.width p.act.windowSize.width, min maxSize.height p.act.windowSize.height⟩

/-- `fitTo(proposed, bounds)`. Returns the panel after `setBounds` together with the `proposed`
rectangle as the call leaves it (its `dim` is modified when the activity is absolutely
positioned). -/
def fitTo (K : Settings) (p : ActivityPanel) (proposed bounds : Rectangle) :
    ActivityPanel × Rectangle :=
  let origin : Point := ⟨0, 0⟩
  let st : Point × Rectangle :=
    match p.act.absolutePositioned, p.act.absolutePosition with
    | true, some ap =>
      (⟨max 0 (ap.x + proposed.pos.x), max 0 (ap.y + proposed.pos.y)⟩,
       { proposed with dim := ⟨proposed.dim.width - ap.x, proposed.dim.height - ap.y⟩ })
    | _, _ => (origin, proposed)
  let origin := st.1
  let proposed := st.2
  let d := p.setDimension ⟨max (2 * p.act.margin + K.MINIMUM_WIDTH) proposed.dim.width,
    max (2 * p.act.margin + K.MINIMUM_HEIGHT) proposed.dim.height⟩
  let origin : Point :=
    if !p.act.absolutePositioned then
      ⟨max 0 (proposed.pos.x + (proposed.dim.width - d.width) / 2),
       max 0 (proposed.pos.y + (proposed.dim.height - d.height) / 2)⟩
    else origin
  let origin : Point :=
    if origin.x + d.width > bounds.dim.width then
      { origin with x := max 0 (bounds.dim.width - d.width) }
    else origin
  let origin : Point :=
    if origin.y + d.height > bounds.dim.height then
      { origin with y := max 0 (bounds.dim.height - d.height) }
    else origin
  let p1 := p.setBounds ⟨⟨origin.x, origin.y⟩, ⟨d.width, d.height⟩⟩
  (p1.emit [Event.setTimeoutBuildAccessibleComponents], proposed)

/-- `forceFinishActivity()`: does nothing in the base class. -/
def forceFinishActivity (p : ActivityPanel) : ActivityPanel := p

/-- `clear()`: does nothing in the base class. -/
def clear (p : ActivityPanel) : ActivityPanel := p

/-- `setAndPlayMsg(msgCode, eventSoundsCode)`. An inherited value has no property
`mediaContent`: `msg.mediaContent` is `undefined`, which is not `=== null`. -/
def setAndPlayMsg (p : ActivityPanel) (msgCode eventSoundsCode : String) : ActivityPanel :=
  let msg := messageOrNull p.act msgCode
  let p1 := p.emit [Event.setMsg msg]
  match msg with
  | MessageValue.null => p1.playEvent eventSoundsCode
  | MessageValue.message m =>
    if m.mediaContent = none then p1.playEvent eventSoundsCode else p1
  | MessageValue.inherited _ => p1

/-- `finishActivity(result)`. -/
def finishActivity (p : ActivityPanel) (result : Bool) : ActivityPanel :=
  let p1 := { p with playing := false, solved := result }
  let p2 := if p1.bc ≠ none then p1.emit [Event.bcEnd] else p1
  let p3 :=
    if result then p2.setAndPlayMsg "final" "finishedOk"
    else p2.setAndPlayMsg "finalError" "finishedError"
  let p4 := p3.emit [Event.activityFinished p3.solved]
  p4.emit [Event.reportEndActivity p4.act p4.solved]

/-- `end()`. -/
def end_ (p : ActivityPanel) : ActivityPanel :=
  let p1 := p.forceFinishActivity
  let p2 :=
    if p1.playing then
      let q1 := if p1.bc ≠ none then p1.emit [Event.bcEnd] else p1
      let q2 := q1.emit [Event.reportEndActivity q1.act q1.solved]
      { q2 with playing := false, solved := false }
    else p1
  p2.clear

/-- The body of `bg.forEach(abb => { if (abb) abb.scrambleCells(k, fitInArea); })`: the calls it
makes, in list order; a `null` entry of `bg` is `none`. -/
def scrambleAll (bg : List (Option ActiveBoxBag)) (k : Int) (fitInArea : Bool) : List Event :=
  bg.filterMap fun abb => abb.map fun b => Event.scrambleCells b k fitInArea

/-- The loop `while (i > 0) { ... i -= steps; }` of `shuffle`, run for at most `fuel` tests of
its condition: `none` when the fuel runs out before the condition fails. -/
def shuffleLoop (steps : Int) (bg : List (Option ActiveBoxBag)) (fitInArea : Bool) :
    Nat → Int → ActivityPanel → Option ActivityPanel
  | 0, _, _ => none
  | fuel + 1, i, p =>
    if i > 0 then
      let k := if i > steps then steps else i
      shuffleLoop steps bg fitInArea fuel (i - steps) (p.emit (scrambleAll bg k fitInArea))
    else some p

/-- `shuffle(bg, visible, fitInArea)`. -/
def shuffle (fuel : Nat) (p : ActivityPanel) (bg : List (Option ActiveBoxBag))
    (_visible fitInArea : Bool) : Option ActivityPanel :=
  let steps := p.act.shuffles
  let i := steps
  shuffleLoop steps bg fitInArea fuel i p

end ActivityPanel

/-! ## Observations on logs -/

/-- The sum of the counts `k` of all `scrambleCells(k, _)` calls in a log. -/
def scrambleTotal : List Event → Int
  | [] => 0
  | Event.scrambleCells _ k _ :: es => k + scrambleTotal es
  | _ :: es => scrambleTotal es

/-- The two host notifications that close a run: `activityFinished` and `reportEndActivity`. -/
def isEndNotification : Event → Bool
  | Event.activityFinished _ => true
  | Event.reportEndActivity _ _ => true
  | _ => false

/-- The notifications closing a run found in a log, in order. -/
def endNotifications (log : List Event) : List Event :=
  log.filter isEndNotification

/-- The host notifications opening or closing a report entry: `reportNewActivity` and
`reportEndActivity`. -/
def isReportNotification : Event → Bool
  | Event.reportNewActivity _ _ => true
  | Event.reportEndActivity _ _ => true
  | _ => false

/-- The counter notifications: `setCounterEnabled` and `setCountDown`. -/
def isCounterNotification : Event → Bool
  | Event.setCounterEnabled _ _ => true
  | Event.setCountDown _ _ => true
  | _ => false

/-! ## Sample data -/

/-- A descriptor with the given shuffle count, window size 500x400, margin 0, not absolutely
positioned, and one `final` message without media. -/
def sampleActivity (shuffles : Int) : Activity :=
  { name := "sample", margin := 0, windowSize := ⟨500, 400⟩,
    absolutePositioned := false, absolutePosition := none,
    maxTime := 0, countDownTime := false, maxActions := 0, countDownActions := false,
    bTimeCounter := true, bScoreCounter := true, bActionsCounter := true,
    messages := [("final", ⟨"Well done", none⟩)], shuffles := shuffles }

/-- A freshly built panel on `sampleActivity`: not playing, not solved, no connector, listening
to `click`, empty log. -/
def samplePanel (shuffles : Int) : ActivityPanel :=
  { act := sampleActivity shuffles, playing := false, solved := false, bc := none,
    events := ["click"], pos := ⟨0, 0⟩, dim := ⟨0, 0⟩, log := [] }

/-- Settings with a minimum content size of 40x40, on a device without touch, with sample
values for the defaults of a new activity. -/
def sampleSettings : Settings :=
  { MINIMUM_WIDTH := 40, MINIMUM_HEIGHT := 40, TOUCH_DEVICE := false,
    DEFAULT_NAME := "---", DEFAULT_MARGIN := JSNumber.finite 8, DEFAULT_BG_COLOR := "#C0C0C0",
    DEFAULT_SHUFFLES := JSNumber.finite 31, BACK_COLOR := "lightgray" }

/-- The sample panel after `initActivity`, `startActivity`: a run in progress. -/
def playingPanel : ActivityPanel :=
  (ActivityPanel.initActivity sampleSettings (samplePanel 1)).startActivity

/-- The sample panel after `initActivity`, `startActivity`, `finishActivity(true)`: a finished
run. -/
def finishedPanel : ActivityPanel :=
  playingPanel.finishActivity true

/-- The sample panel after `initActivity`, `startActivity`, `finishActivity(true)`,
`startActivity`. -/
def replayedPanel : ActivityPanel :=
  finishedPanel.startActivity

/-- The sample panel on a descriptor whose window size, 30x30, is below the minimum content
size of `sampleSettings`. -/
def smallWindowPanel : ActivityPanel :=
  { samplePanel 1 with act := { sampleActivity 1 with windowSize := ⟨30, 30⟩ } }

/-- The `setCounterEnabled` calls. -/
def isSetCounterEnabled : Event → Bool
  | Event.setCounterEnabled _ _ => true
  | _ => false

/-- The sample panel on a descriptor with `countDownTime = true` and `maxTime = 0`. -/
def countDownPanel : ActivityPanel :=
  { samplePanel 1 with act := { sampleActivity 1 with countDownTime := true } }

/-! ## Call lists

The calls that `setAndPlayMsg`, `attachEvents` and `enableCounters` append to the log, written as
lists; `setAndPlayMsg_eq`, `attachEvents_eq` and `enableCounters_eq` below prove that the methods
append exactly these. -/

/-- The calls made by `setAndPlayMsg(msgCode, eventSoundsCode)` on a descriptor: `setMsg` with the
value found (or `null`), then the event sound when that value is `null` or a message without
media. -/
def msgCalls (act : Activity) (msgCode eventSoundsCode : String) : List Event :=
  Event.setMsg (messageOrNull act msgCode) ::
    (match messageOrNull act msgCode with
      | MessageValue.null => [Event.playEvent eventSoundsCode]
      | MessageValue.message m =>
        if m.mediaContent = none then [Event.playEvent eventSoundsCode] else []
      | MessageValue.inherited _ => [])

/-- The calls made by `attachEvents()`: one listener per entry of `events`, then the touch probe
unless the device is known to be a touch device or `events` already lists `touchstart`. -/
def attachCalls (K : Settings) (events : List String) : List Event :=
  events.map Event.addEventListener ++
    (if !K.TOUCH_DEVICE && !events.contains TOUCH_TEST_EVENT then
      [Event.addEventListener TOUCH_TEST_EVENT] else [])

/-- The calls made by `enableCounters(eTime, eScore, eActions)` on a descriptor. -/
def counterCalls (act : Activity) (eTime eScore eActions : Option Bool) : List Event :=
  [Event.setCounterEnabled "time" (eTime.getD act.bTimeCounter)]
    ++ (if act.countDownTime then [Event.setCountDown "time" act.maxTime] else [])
    ++ [Event.setCounterEnabled "score" (eScore.getD act.bScoreCounter),
        Event.setCounterEnabled "actions" (eActions.getD act.bActionsCounter)]
    ++ (if act.countDownActions then [Event.setCountDown "actions" act.maxActions] else [])

/-- The size `d` of C10, in the words of the claim:
`(min(max(2*margin + MINIMUM_WIDTH, proposed.w), windowSize.w),
  min(max(2*margin + MINIMUM_HEIGHT, proposed.h), windowSize.h))`. -/
def centredSize (K : Settings) (act : Activity) (proposed : Rectangle) : Dimension :=
  ⟨min (max (2 * act.margin + K.MINIMUM_WIDTH) proposed.dim.width) act.windowSize.width,
   min (max (2 * act.margin + K.MINIMUM_HEIGHT) proposed.dim.height) act.windowSize.height⟩

/-! ## Documents, JavaScript values and helpers from outside `Activity.js`

`Activity.setProperties` reads an XML element. Objects built by classes that are not part of the
sources read (`AWT.Gradient`, `AWT.Point`, `AWT.Dimension`, `BoxBase`, `ActiveBagContent`,
`ActiveBoxContent`, `TextGridContent`, `Evaluator`, `TextActivityDocument`, `AutoContentProvider`,
`EventSounds`) are represented by the XML node they are built from. -/

/-- A DOM node: an element with its attributes and child nodes, or a text node (node name
`#text`, text in `data`). -/
inductive Element where
  | mk (nodeName : String) (attributes : List (String × String)) (childNodes : List Element)
      (data : String) : Element

namespace Element

/-- `node.nodeName`. -/
def nodeName : Element → String
  | mk n _ _ _ => n

/-- `node.attributes`, in document order, as pairs of name and value. -/
def attributes : Element → List (String × String)
  | mk _ a _ _ => a

/-- `node.childNodes`. -/
def childNodes : Element → List Element
  | mk _ _ c _ => c

/-- `node.getAttribute(name)`: `null` (`none`) when the attribute is absent. -/
def getAttribute (e : Element) (name : String) : Option String :=
  e.attributes.lookup name

mutual
/-- `node.textContent`: the text of the text nodes below the node, in document order. -/
def textContent : Element → String
  | mk n _ c d => if n = "#text" then d else textContentList c
/-- The concatenated `textContent` of a list of nodes. -/
def textContentList : List Element → String
  | [] => ""
  | e :: es => textContent e ++ textContentList es
end

mutual
/-- The nodes strictly below a node, in document order. -/
def descendants : Element → List Element
  | mk _ _ c _ => descendantsList c
/-- The nodes of a list, each followed by its descendants. -/
def descendantsList : List Element → List Element
  | [] => []
  | e :: es => e :: (descendants e ++ descendantsList es)
end

/-- `node.querySelectorAll(name)` for a tag name: the descendants with that node name, in
document order. -/
def querySelectorAll (e : Element) (name : String) : List Element :=
  e.descendants.filter fun d => d.nodeName = name

end Element

/-- A value that is `undefined`, `null` or a string. -/
inductive JSText where
  | undefined : JSText
  | null : JSText
  | str (s : String) : JSText
  deriving DecidableEq

/-- The value of `child.getAttribute('maxTime') || -1`: the attribute, or the number `-1`. -/
inductive MaxTimeAttr where
  | minusOne : MaxTimeAttr
  | str (s : String) : MaxTimeAttr
  deriving DecidableEq

/-- An exception thrown by the JavaScript runtime. -/
inductive JSError where
  | typeError (msg : String) : JSError
  deriving DecidableEq

/-- A `MediaBagElement`, as far as `MediaBag.js` uses it. -/
structure MediaBagElement where
  name : String
  fileName : String
  ext : String
  type : String
  deriving DecidableEq

/-- The built-in `Number` and the functions of `Utils.js`, of the content classes and of the
project classes that `Activity.js` and `JClicProject.js` call. Their code is not part of the
sources read, so they are parameters. -/
structure Externals where
  /-- `Number(val)`; `none` is `null`. -/
  Number : Option String → JSNumber
  /-- `Utils.getBoolean(val, defaultValue)`; an omitted default is `none`. -/
  getBoolean : Option String → Option Bool → Bool
  /-- `Utils.nSlash(val)` -/
  nSlash : String → String
  /-- `Utils.checkColor(val, defaultColor)` -/
  checkColor : Option String → String → String
  /-- `Utils.getXmlText(node)`; `none` is `null`. -/
  getXmlText : Element → Option String
  /-- The `id` of `new ActiveBagContent().setProperties(node, mediaBag)`. -/
  bagId : Element → String
  /-- Whether `new ActiveBoxContent().setProperties(node, mediaBag)` has a `bb` that is neither
  `null` nor `undefined`. -/
  cellHasBoxBase : Element → Bool
  /-- `Utils.getBasePath(path)` -/
  getBasePath : String → String
  /-- The error that `ProjectSettings.setProperties(node)` throws, `none` when the call returns;
  the argument `none` is `null`. -/
  projectSettings : Option Element → Option JSError
  /-- The error that `ActivitySequence.setProperties(node)` throws, `none` when the call returns;
  the argument `none` is `null`. -/
  activitySequence : Option Element → Option JSError
  /-- The element that `new MediaBagElement(basePath, null, zip)` is after its
  `setProperties($(node))`. -/
  mediaBagElement : Element → MediaBagElement

/-- The value `a || ''` for a nullable string. -/
def orEmpty (o : Option String) : String :=
  o.getD ""

/-- The value `a || null` for a nullable string: the empty string is falsy. -/
def orNull (o : Option String) : Option String :=
  match o with
  | none => none
  | some s => if s = "" then none else some s

/-- The property key used by `obj[k]` for a nullable string `k`: `null` becomes `"null"`. -/
def propertyKey (o : Option String) : String :=
  o.getD "null"

/-- The assignment `obj[k] = v` on an object given as the list of its own properties: an existing
property keeps its place. -/
def setProperty {α : Type} (obj : List (String × α)) (k : String) (v : α) : List (String × α) :=
  if obj.any (fun kv => kv.1 = k) then
    obj.map fun kv => if kv.1 = k then (k, v) else kv
  else obj ++ [(k, v)]

/-- The legacy namespace prefix of activity class names. -/
def legacyPrefix : String := "edu.xtec.jclic.activities."

/-- The expression `s.replace(/^edu\.xtec\.jclic\.activities\./, '@')`. -/
def normalizeClassName (s : String) : String :=
  if legacyPrefix.data.isPrefixOf s.data then
    ⟨'@' :: s.data.drop legacyPrefix.data.length⟩
  else s

/-- The object `Activity.prototype.scramble`, shared by all activities. -/
structure ScrambleType where
  primary : Bool
  secondary : Bool
  deriving DecidableEq

/-- State outside the activity being read: the shared object `Activity.prototype.scramble` and
the messages given to `Utils.log('error', ...)`. -/
structure Globals where
  scramble : ScrambleType
  errors : List String
  deriving DecidableEq

/-- The state of `Activity.prototype.scramble` when `Activity.js` has just been loaded:
`{ primary: true, secondary: true }`. -/
def Globals.initial : Globals :=
  { scramble := ⟨true, true⟩, errors := [] }

/-! ## `MediaBag.js`

The object `elements` of a media bag is the list of its own properties, in the order in which
`for ... in` and `$.each` visit them; a new key is added at the end. The class `MediaBagElement`
is not part of the sources read: an element is the record of the fields that `MediaBag.js`
reads and writes, and `getFileType` and the built-in `toLowerCase` are parameters. -/

/-- What a method that reads a document is handed: the jQuery object `$(node)`, the DOM
element `node` itself, or `null`. -/
inductive XmlArgument where
  | jQuery (node : Element) : XmlArgument
  | element (node : Element) : XmlArgument
  | null : XmlArgument

/-- A `MediaBag`: its `elements`, and the names of the elements on which `build` has been
called, in call order. -/
structure MediaBag where
  elements : List (String × MediaBagElement)
  built : List String
  deriving DecidableEq

/-- The last of the pieces of a list of characters separated by `sep`: `s.split(sep).pop()`. -/
def lastPiece (sep : Char) : List Char → List Char → List Char
  | [], acc => acc
  | c :: cs, acc => if c = sep then lastPiece sep cs [] else lastPiece sep cs (acc ++ [c])

/-- The expression `fileName.toLowerCase().split('#')[0].split('.').pop()`. -/
def fileExtension (toLowerCase : String → String) (fileName : String) : String :=
  ⟨lastPiece '.' ((toLowerCase fileName).data.takeWhile fun c => c ≠ '#') []⟩

namespace MediaBag

/-- The method `setProperties($xml)`. It is written for a jQuery object: on `$(node)` it reads
the children of the node with tag name `media`, in document order, and stores each element under
its name. A DOM element has a property `children` that is a collection of nodes, not a function,
and `null` has no properties: for these arguments the first call, `$xml.children('media')`,
throws. -/
def setProperties (readElement : Element → MediaBagElement) (bag : MediaBag) :
    XmlArgument → Except JSError MediaBag
  | XmlArgument.jQuery node =>
    .ok ((node.childNodes.filter fun c => c.nodeName = "media").foldl
      (fun b media =>
        let mbe := readElement media
        { b with elements := setProperty b.elements mbe.name mbe }) bag)
  | XmlArgument.element _ => .error (JSError.typeError "$xml.children is not a function")
  | XmlArgument.null =>
    .error (JSError.typeError "Cannot read properties of null (reading 'children')")

/-- `getElementByFileName(fileName, create)`; a `null` file name is `none`. Returns the bag after
the call and the result (`none` is `null`). -/
def getElementByFileName (toLowerCase : String → String) (getFileType : String → String)
    (bag : MediaBag) (fileName : Option String) (create : Bool) :
    MediaBag × Option MediaBagElement :=
  match fileName with
  | none => (bag, none)
  | some f =>
    if f = "" then (bag, none)
    else
      match bag.elements.find? fun kv => kv.2.fileName = f with
      | some kv => (bag, some kv.2)
      | none =>
        if create then
          let ext := fileExtension toLowerCase f
          let result : MediaBagElement :=
            { name := f, fileName := f, ext := ext, type := getFileType ext }
          ({ bag with elements := setProperty bag.elements result.name result }, some result)
        else (bag, none)

/-- `getElement(name, create)`. The result `none` is `undefined` or `null`. -/
def getElement (toLowerCase : String → String) (getFileType : String → String)
    (bag : MediaBag) (name : Option String) (create : Bool) :
    MediaBag × Option MediaBagElement :=
  match bag.elements.lookup (propertyKey name) with
  | some result => (bag, some result)
  | none =>
    if create then getElementByFileName toLowerCase getFileType bag name create
    else (bag, none)

/-- `buildAll(type)`: calls `build` on the elements selected by the test
`!type || element.name === type`, in the order of `elements`. -/
def buildAll (bag : MediaBag) (type : Option String) : MediaBag :=
  { bag with
    built := bag.built ++ (bag.elements.filter fun kv =>
      (type = none || type = some "") || kv.2.name = type.getD "").map fun kv => kv.2.name }

end MediaBag

/-- A bag with one element named `a` whose file is `x.png`. -/
def collisionBag : MediaBag :=
  { elements := [("a", { name := "a", fileName := "x.png", ext := "png", type := "image" })],
    built := [] }

/-- A bag with a font named `arial` and an image named `font`. -/
def fontBag : MediaBag :=
  { elements :=
      [("arial", { name := "arial", fileName := "arial.ttf", ext := "ttf", type := "font" }),
       ("font", { name := "font", fileName := "font.png", ext := "png", type := "image" })],
    built := [] }

/-- A sample `getFileType`: `ttf` is a font, `png` an image. -/
def sampleFileType (ext : String) : String :=
  if ext = "ttf" then "font" else if ext = "png" then "image" else "unknown"

/-- A `JClicProject`: the properties that `JClicProject.setProperties` assigns. The default
values are those of `new JClicProject()`: the constructor creates `_activities` and `mediaBag`,
every other property has the value of `JClicProject.prototype`. A `JSZip` object is identified
by a number. The properties `settings` and `activitySequence` belong to classes that are not
part of the sources read; see `Externals`. -/
structure JClicProject where
  name : Option String := some "unknown"
  version : Option String := some "0.1.3"
  type : Option String := none
  code : Option String := none
  reportableActs : Int := 0
  _activities : List (String × Element) := []
  mediaBag : MediaBag := ⟨[], []⟩
  basePath : String := ""
  path : Option String := none
  zip : Option Nat := none

/-- An entry of `menuElements`. -/
structure MenuElement where
  caption : String
  icon : Option String
  projectPath : Option String
  sequence : Option String
  description : String
  deriving DecidableEq

/-- A message read by `readMessage`: the `ActiveBoxContent` built from `node`, its `type`, and
whether `readMessage` gave it a default `BoxBase`. -/
structure Message where
  node : Element
  type : Option String
  defaultBoxBase : Bool

/-- An `Activity` object: its own properties, or the value inherited from `Activity.prototype`
while a property has not been assigned. A nullable property is an `Option` (`none` is `null`, or
`undefined` for the properties that the prototype does not define). The property `scramble` is
the shared object in `Globals`. -/
structure ActivityObject where
  project : JClicProject
  name : String
  className : Option String
  code : Option String
  type : Option String
  description : Option String
  invAss : Bool
  autoJump : Option Bool
  forceOkToAdvance : Option Bool
  amongParagraphs : Option Bool
  infoUrl : Option String
  infoCmd : Option String
  margin : JSNumber
  maxTime : JSNumber
  maxActions : JSNumber
  includeInReports : Bool
  countDownTime : Bool
  countDownActions : Bool
  reportActions : Bool
  useOrder : Bool
  dragCells : Bool
  skinFileName : Option String
  helpMsg : Option String
  showSolution : Bool
  helpWindow : Bool
  bgColor : String
  bgImageFile : Option String
  tiledBgImg : Bool
  bTimeCounter : Bool
  bActionsCounter : Bool
  bScoreCounter : Bool
  bgGradient : Option Element
  activityBgColor : String
  transparentBg : Bool
  border : Bool
  activityBgGradient : Option Element
  absolutePosition : Option Element
  absolutePositioned : Bool
  /-- `none` is the prototype value `new AWT.Dimension(K.DEFAULT_WIDTH, K.DEFAULT_HEIGHT)`. -/
  windowSize : Option Element
  /-- The nodes given to `this.eventSounds.setProperties`, in order. -/
  eventSounds : List Element
  messages : List (String × Message)
  acp : Option Element
  abc : List (String × Element)
  shuffles : JSNumber
  boxGridPos : String
  wildTransparent : Option Bool
  upperCase : Option Bool
  checkCase : Option Bool
  menuElements : Option (List MenuElement)
  tgc : Option Element
  clues : Option (List String)
  clueItems : Option (List JSNumber)
  checkButtonText : Option String
  prevScreen : Option Bool
  prevScreenMaxTime : Option MaxTimeAttr
  prevScreenStyle : Option Element
  prevScreenText : JSText
  ev : Option Element
  document : Option Element

namespace Activity

/-- `new Activity(project)`: the constructor sets `project`, `eventSounds`, `messages` and `abc`;
every other property has the value of `Activity.prototype`. -/
def construct (K : Settings) (project : JClicProject) : ActivityObject :=
  { project := project
    name := K.DEFAULT_NAME
    className := none
    code := none
    type := none
    description := none
    invAss := false
    autoJump := none
    forceOkToAdvance := none
    amongParagraphs := none
    infoUrl := none
    infoCmd := none
    margin := K.DEFAULT_MARGIN
    maxTime := JSNumber.finite 0
    maxActions := JSNumber.finite 0
    includeInReports := true
    countDownTime := false
    countDownActions := false
    reportActions := false
    useOrder := false
    dragCells := false
    skinFileName := none
    helpMsg := some ""
    showSolution := false
    helpWindow := false
    bgColor := K.DEFAULT_BG_COLOR
    bgImageFile := none
    tiledBgImg := false
    bTimeCounter := true
    bActionsCounter := true
    bScoreCounter := true
    bgGradient := none
    activityBgColor := K.DEFAULT_BG_COLOR
    transparentBg := false
    border := true
    activityBgGradient := none
    absolutePosition := none
    absolutePositioned := false
    windowSize := none
    eventSounds := []
    messages := []
    acp := none
    abc := []
    shuffles := K.DEFAULT_SHUFFLES
    boxGridPos := "AB"
    wildTransparent := none
    upperCase := none
    checkCase := none
    menuElements := none
    tgc := none
    clues := none
    clueItems := none
    checkButtonText := none
    prevScreen := none
    prevScreenMaxTime := none
    prevScreenStyle := none
    prevScreenText := JSText.undefined
    ev := none
    document := none }

/-- `readMessage(xml)`. -/
def readMessage (U : Externals) (xml : Element) : Message :=
  { node := xml, type := xml.getAttribute "type", defaultBoxBase := !U.cellHasBoxBase xml }

/-- The callback of `Utils.attrForEach(xml.attributes, ...)` in `setProperties`: one attribute of
the activity node. -/
def readAttribute (U : Externals) (a : ActivityObject) (attr : String × String) :
    ActivityObject :=
  let name := attr.1
  let val := attr.2
  if name = "name" then { a with name := U.nSlash val }
  else if name = "code" then { a with code := some val }
  else if name = "type" then { a with type := some val }
  else if name = "description" then { a with description := some val }
  else if name = "class" then { a with className := some (normalizeClassName val) }
  else if name = "inverse" then { a with invAss := U.getBoolean (some val) (some false) }
  else if name = "autoJump" then { a with autoJump := some (U.getBoolean (some val) (some false)) }
  else if name = "forceOkToAdvance" then
    { a with forceOkToAdvance := some (U.getBoolean (some val) (some false)) }
  else if name = "amongParagraphs" then
    { a with amongParagraphs := some (U.getBoolean (some val) (some false)) }
  else a

/-- The callback of `Utils.attrForEach(child.attributes, ...)` for the `settings` node: one
attribute of that node. -/
def readSettingsAttribute (U : Externals) (a : ActivityObject) (attr : String × String) :
    ActivityObject :=
  let name := attr.1
  let val := attr.2
  if name = "infoUrl" then { a with infoUrl := some val }
  else if name = "infoCmd" then { a with infoCmd := some val }
  else if name = "margin" then { a with margin := U.Number (some val) }
  else if name = "maxTime" then { a with maxTime := U.Number (some val) }
  else if name = "maxActions" then { a with maxActions := U.Number (some val) }
  else if name = "report" then { a with includeInReports := U.getBoolean (some val) (some false) }
  else if name = "countDownTime" then
    { a with countDownTime := U.getBoolean (some val) (some false) }
  else if name = "countDownActions" then
    { a with countDownActions := U.getBoolean (some val) (some false) }
  else if name = "reportActions" then
    { a with reportActions := U.getBoolean (some val) (some false) }
  else if name = "useOrder" then { a with useOrder := U.getBoolean (some val) (some false) }
  else if name = "dragCells" then { a with dragCells := U.getBoolean (some val) (some false) }
  else a

/-- One child node of the `container` node. -/
def readContainerChild (U : Externals) (a : ActivityObject) (child : Element) : ActivityObject :=
  if child.nodeName = "image" then
    { a with
      bgImageFile := child.getAttribute "name"
      tiledBgImg := U.getBoolean (child.getAttribute "tiled") (some false) }
  else if child.nodeName = "counters" then
    { a with
      bTimeCounter := U.getBoolean (child.getAttribute "time") (some true)
      bActionsCounter := U.getBoolean (child.getAttribute "actions") (some true)
      bScoreCounter := U.getBoolean (child.getAttribute "score") (some true) }
  else if child.nodeName = "gradient" then { a with bgGradient := some child }
  else a

/-- One child node of the `window` node. -/
def readWindowChild (a : ActivityObject) (child : Element) : ActivityObject :=
  if child.nodeName = "gradient" then { a with activityBgGradient := some child }
  else if child.nodeName = "position" then
    { a with absolutePosition := some child, absolutePositioned := true }
  else if child.nodeName = "size" then { a with windowSize := some child }
  else a

/-- One child node of the `settings` node. -/
def readSettingsChild (U : Externals) (K : Settings) (a : ActivityObject) (child : Element) :
    ActivityObject :=
  if child.nodeName = "skin" then { a with skinFileName := child.getAttribute "file" }
  else if child.nodeName = "helpWindow" then
    let helpMsg := U.getXmlText child
    let showSolution := U.getBoolean (child.getAttribute "showSolution") (some false)
    { a with
      helpMsg := helpMsg
      showSolution := showSolution
      helpWindow := (helpMsg != none) || showSolution }
  else if child.nodeName = "container" then
    let a1 := { a with bgColor := U.checkColor (child.getAttribute "bgColor") K.BACK_COLOR }
    child.childNodes.foldl (readContainerChild U) a1
  else if child.nodeName = "window" then
    let a1 := { a with
      activityBgColor := U.checkColor (child.getAttribute "bgColor") K.DEFAULT_BG_COLOR
      transparentBg := U.getBoolean (child.getAttribute "transparent") (some false)
      border := U.getBoolean (child.getAttribute "border") (some false) }
    child.childNodes.foldl readWindowChild a1
  else if child.nodeName = "eventSounds" then { a with eventSounds := a.eventSounds ++ [child] }
  else a

/-- The case `'settings'` of `setProperties`: the attributes, then the child nodes. -/
def readSettings (U : Externals) (K : Settings) (a : ActivityObject) (child : Element) :
    ActivityObject :=
  let a1 := child.attributes.foldl (readSettingsAttribute U) a
  child.childNodes.foldl (readSettingsChild U K) a1

/-- The callback of `Utils.attrForEach(child.attributes, ...)` for the `layout` node. -/
def readLayoutAttribute (U : Externals) (a : ActivityObject) (attr : String × String) :
    ActivityObject :=
  let name := attr.1
  let value := attr.2
  if name = "position" then { a with boxGridPos := value }
  else if name = "wildTransparent" then
    { a with wildTransparent := some (U.getBoolean (some value) none) }
  else if name = "upperCase" then { a with upperCase := some (U.getBoolean (some value) none) }
  else if name = "checkCase" then { a with checkCase := some (U.getBoolean (some value) none) }
  else a

/-- One child node of the `prevScreen` node. -/
def readPrevScreenChild (a : ActivityObject) (child : Element) : ActivityObject :=
  if child.nodeName = "style" then { a with prevScreenStyle := some child }
  else if child.nodeName = "p" then
    let text :=
      match a.prevScreenText with
      | JSText.null => ""
      | JSText.undefined => "undefined"
      | JSText.str s => s
    { a with prevScreenText := JSText.str (text ++ "<p>" ++ child.textContent ++ "</p>") }
  else a

/-- The body of `xml.childNodes.forEach(child => ...)` in `setProperties`: one child node of the
activity node. The state is the shared `Globals` and the activity being read; the result is an
error when the body throws. -/
def readChild (U : Externals) (K : Settings) (st : Globals × ActivityObject) (child : Element) :
    Except JSError (Globals × ActivityObject) :=
  let g := st.1
  let a := st.2
  if child.nodeName = "settings" then .ok (g, readSettings U K a child)
  else if child.nodeName = "messages" then
    .ok (g, (child.querySelectorAll "cell").foldl
      (fun a c =>
        let m := readMessage U c
        { a with messages := setProperty a.messages (propertyKey m.type) m }) a)
  else if child.nodeName = "automation" then .ok (g, { a with acp := some child })
  else if child.nodeName = "cells" then
    .ok (g, { a with abc := setProperty a.abc (U.bagId child) child })
  else if child.nodeName = "scramble" then
    .ok ({ g with
        scramble :=
          { primary := U.getBoolean (child.getAttribute "primary") none
            secondary := U.getBoolean (child.getAttribute "secondary") none } },
      { a with shuffles := U.Number (child.getAttribute "times") })
  else if child.nodeName = "layout" then
    .ok (g, child.attributes.foldl (readLayoutAttribute U) a)
  else if child.nodeName = "menuElement" then
    match a.menuElements with
    | none => .error (JSError.typeError "Cannot read properties of null (reading 'push')")
    | some l =>
      .ok (g, { a with menuElements := some (l ++ [
        { caption := orEmpty (child.getAttribute "caption")
          icon := orNull (child.getAttribute "icon")
          projectPath := orNull (child.getAttribute "path")
          sequence := orNull (child.getAttribute "sequence")
          description := orEmpty (child.getAttribute "description") }]) })
  else if child.nodeName = "textGrid" then .ok (g, { a with tgc := some child })
  else if child.nodeName = "clues" then
    .ok (g, { a with
      clues := some ((child.querySelectorAll "clue").map Element.textContent)
      clueItems := some ((child.querySelectorAll "clue").map
        fun c => U.Number (c.getAttribute "id")) })
  else if child.nodeName = "checkButton" then
    .ok (g, { a with
      checkButtonText := some (if child.textContent = "" then "check" else child.textContent) })
  else if child.nodeName = "prevScreen" then
    let a1 := { a with
      prevScreen := some true
      prevScreenMaxTime := some (match orNull (child.getAttribute "maxTime") with
        | none => MaxTimeAttr.minusOne
        | some s => MaxTimeAttr.str s) }
    .ok (g, child.childNodes.foldl readPrevScreenChild a1)
  else if child.nodeName = "evaluator" then .ok (g, { a with ev := some child })
  else if child.nodeName = "document" then .ok (g, { a with document := some child })
  else .ok st

/-- `setProperties(xml)` of the base class `Activity`, on the activity `a`: the attributes of
the node, then its child nodes. -/
def setProperties (U : Externals) (K : Settings) (g : Globals) (a : ActivityObject)
    (xml : Element) : Except JSError (Globals × ActivityObject) :=
  let a1 := xml.attributes.foldl (readAttribute U) a
  xml.childNodes.foldlM (readChild U K) (g, a1)

end Activity

/-! ## `JClicProject.js` -/

/-- `node.querySelector(name)` for a tag name: the first descendant with that node name, or
`null`. -/
def Element.querySelector (e : Element) (name : String) : Option Element :=
  (e.querySelectorAll name).head?

/-- The result of `xml.querySelector(name)` as an argument: a DOM element or `null`. -/
def Element.queryArgument (e : Element) (name : String) : XmlArgument :=
  match e.querySelector name with
  | some node => XmlArgument.element node
  | none => XmlArgument.null

namespace JClicProject

/-- `setProperties(xml, path, zip, options)` on the project `p`; `path` is a string or
`undefined` and `zip` a `JSZip` object or `undefined` (both `none`). The call never returns: the
result is the project as the call leaves it and the error it throws.

* lines 75-86: `path` and `basePath` (a string has no property `file`; the empty string is
  falsy), `zip`, and the four attributes of the project node;
* lines 87-88: the settings and the activity sequence read their nodes, and may throw;
* line 89: `this.mediaBag.setProperties` is given the DOM element found by `querySelector`, or
  `null`;
* lines 90-93: `reportableActs`, `_activities`, and the `activities` node, which must not be
  `null`;
* line 94: `this.mediaBag.getElementsOfType('font')`: `MediaBag.js` defines no method of that
  name (and `Object.prototype` has none), so the call throws a `TypeError` whenever it is
  reached. The statements after it (lines 95-105: the fonts, the loop over the activities that
  fills `_activities` and counts `reportableActs`, and the `return`) are never executed. -/
def setProperties (U : Externals) (p : JClicProject) (xml : Element) (path : Option String)
    (zip : Option Nat) : JClicProject × JSError :=
  let p1 : JClicProject :=
    match path with
    | some s => if s = "" then p else { p with path := some s, basePath := U.getBasePath s }
    | none => p
  let p2 : JClicProject := { p1 with
    zip := zip
    name := xml.getAttribute "name"
    version := xml.getAttribute "version"
    type := xml.getAttribute "type"
    code := xml.getAttribute "code" }
  match U.projectSettings (xml.querySelector "settings") with
  | some e => (p2, e)
  | none =>
    match U.activitySequence (xml.querySelector "sequence") with
    | some e => (p2, e)
    | none =>
      match MediaBag.setProperties U.mediaBagElement p2.mediaBag
        (xml.queryArgument "mediaBag") with
      | .error e => (p2, e)
      | .ok bag =>
        let p3 : JClicProject := { p2 with mediaBag := bag, reportableActs := 0, _activities := [] }
        match xml.querySelector "activities" with
        | none =>
          (p3, JSError.typeError "Cannot read properties of null (reading 'querySelectorAll')")
        | some _ =>
          (p3, JSError.typeError "this.mediaBag.getElementsOfType is not a function")

end JClicProject

/-- A class registered in `Activity.CLASSES`: its constructor and its `setProperties`. -/
structure ActivityClass where
  construct : Settings → JClicProject → ActivityObject
  setProperties : Externals → Settings → Globals → ActivityObject → Element →
    Except JSError (Globals × ActivityObject)

/-- The class `Activity` itself. -/
def Activity.baseClass : ActivityClass :=
  { construct := Activity.construct, setProperties := Activity.setProperties }

/-- The object `Activity.CLASSES` as `Activity.js` defines it: `{ '@panels.Menu': Activity }`.
The registry is the list of its own properties; being created by an object literal, it inherits
the properties of `Object.prototype` as well (`objectPrototypeNames`). -/
def Activity.CLASSES : List (String × ActivityClass) :=
  [("@panels.Menu", Activity.baseClass)]

/-- The registry key computed by `getActivity`:
`(xml.getAttribute('class') || '').replace(/^edu\.xtec\.jclic\.activities\./, '@')`. -/
def Activity.classKey (xml : Element) : String :=
  normalizeClassName (orEmpty (xml.getAttribute "class"))

/-- `Activity.getActivity(xml, project)` with the registry `classes`; a `null` argument is
`none`. The result is the activity or `null`, with the globals after the call, or the error
thrown. The lookup `Activity.CLASSES[className]` finds a registered class or, failing that, a
property inherited from `Object.prototype`, which is truthy:

* under `constructor` it finds `Object`, and `new Object(project)` is the project itself, so
  that `act.setProperties(xml)` is `JClicProject.setProperties` with one argument, which throws;
* under every other inherited name it finds a built-in method, or the object `Object.prototype`
  under `__proto__`; none of them is a constructor, and `new cl(project)` throws a
  `TypeError`. -/
def Activity.getActivity (U : Externals) (K : Settings) (classes : List (String × ActivityClass))
    (g : Globals) (xml : Option Element) (project : Option JClicProject) :
    Except JSError (Globals × Option ActivityObject) :=
  match xml, project with
  | some xml, some project =>
    let className := Activity.classKey xml
    match classes.lookup className with
    | some cl =>
      match cl.setProperties U K g (cl.construct K project) xml with
      | .ok (g1, act) => .ok (g1, some act)
      | .error e => .error e
    | none =>
      if className = "constructor" then
        .error (JClicProject.setProperties U project xml none none).2
      else if className ∈ objectPrototypeNames then
        .error (JSError.typeError "cl is not a constructor")
      else
        .ok ({ g with errors := g.errors ++ ["Unknown activity class: " ++ className] }, none)
  | _, _ => .ok (g, none)

/-! ## Sample helpers and documents -/

/-- The value of a list of decimal digits, `none` when a character is not a digit. -/
def digitsValue : List Char → Nat → Option Nat
  | [], acc => some acc
  | c :: cs, acc => if c.isDigit then digitsValue cs (acc * 10 + (c.toNat - 48)) else none

/-- The built-in `Number` on `null`, on the empty string and on optionally signed decimal
integers, where it agrees with JavaScript; every other string is taken to `NaN`, which is what
JavaScript does for a string of letters such as `abc`. Used by the examples only. -/
def sampleNumber : Option String → JSNumber
  | none => JSNumber.finite 0
  | some s =>
    match s.data with
    | [] => JSNumber.finite 0
    | '-' :: c :: cs =>
      match digitsValue (c :: cs) 0 with
      | some n => JSNumber.finite (-(n : ℚ))
      | none => JSNumber.nan
    | cs =>
      match digitsValue cs 0 with
      | some n => JSNumber.finite (n : ℚ)
      | none => JSNumber.nan

/-- Sample helpers for the examples: `getBoolean` reads `true` and `false` and otherwise gives
the default (`false` when omitted), `nSlash` leaves a name without backslashes as it is,
`checkColor` gives the attribute or the default, `getXmlText` gives the text of the node, the
`id` of a bag is its `id` attribute, no cell has a `BoxBase` of its own, `getBasePath` gives
the path as it is, the settings and the sequence of a project are read without error, and a
media element has the `name` and `file` attributes of its node. -/
def sampleExternals : Externals :=
  { Number := sampleNumber
    getBoolean := fun v d => if v = some "true" then true else if v = some "false" then false
      else d.getD false
    nSlash := fun s => s
    checkColor := fun v d => v.getD d
    getXmlText := fun e => some e.textContent
    bagId := fun e => orEmpty (e.getAttribute "id")
    cellHasBoxBase := fun _ => false
    getBasePath := fun s => s
    projectSettings := fun _ => none
    activitySequence := fun _ => none
    mediaBagElement := fun e =>
      ⟨orEmpty (e.getAttribute "name"), orEmpty (e.getAttribute "file"), "", ""⟩ }

/-- A sample project. -/
def sampleProject : JClicProject := { name := "demo" }

/-- The document `<activity class="@panels.Menu"><settings maxTime="-5" maxActions="abc"/>
</activity>`. -/
def badLimitsDocument : Element :=
  .mk "activity" [("class", "@panels.Menu")]
    [.mk "settings" [("maxTime", "-5"), ("maxActions", "abc")] [] ""] ""

/-- The document `<activity name="a"><scramble times="5" primary="false" secondary="false"/>
</activity>`. -/
def scrambledDocument : Element :=
  .mk "activity" [("name", "a")]
    [.mk "scramble" [("times", "5"), ("primary", "false"), ("secondary", "false")] [] ""] ""

/-- The document `<activity name="b"><settings margin="4"/></activity>`: no `scramble` node and
no `menuElement` node. -/
def plainDocument : Element :=
  .mk "activity" [("name", "b")] [.mk "settings" [("margin", "4")] [] ""] ""

/-- The document `<activity class="@panels.Menu"><menuElement caption="Puzzles"
path="puzzles.jclic"/></activity>`. -/
def menuDocument : Element :=
  .mk "activity" [("class", "@panels.Menu")]
    [.mk "menuElement" [("caption", "Puzzles"), ("path", "puzzles.jclic")] [] ""] ""

/-- The document `<activity class="edu.xtec.jclic.activities.puzzles.Unknown"/>`. -/
def unknownClassDocument : Element :=
  .mk "activity" [("class", "edu.xtec.jclic.activities.puzzles.Unknown")] [] ""

/-- The numbers of an activity that `setProperties` reads from the attributes of a `settings`
node (`maxTime`, `maxActions`) and of a `scramble` node (`shuffles`). -/
def limitsOf (a : ActivityObject) : JSNumber × JSNumber × JSNumber :=
  (a.maxTime, a.maxActions, a.shuffles)

/-- The attribute names that `setProperties` recognises on the activity node: the `case` labels
of its first `switch`. -/
def activityAttributeNames : List String :=
  ["name", "code", "type", "description", "class", "inverse", "autoJump", "forceOkToAdvance",
    "amongParagraphs"]

/-- The node names that `setProperties` recognises among the child nodes of the activity node. -/
def activityChildNames : List String :=
  ["settings", "messages", "automation", "cells", "scramble", "layout", "menuElement",
    "textGrid", "clues", "checkButton", "prevScreen", "evaluator", "document"]

/-- The attribute names that `setProperties` recognises on a `settings` node. -/
def settingsAttributeNames : List String :=
  ["infoUrl", "infoCmd", "margin", "maxTime", "maxActions", "report", "countDownTime",
    "countDownActions", "reportActions", "useOrder", "dragCells"]

/-- The node names that `setProperties` recognises among the child nodes of a `settings`
node. -/
def settingsChildNames : List String :=
  ["skin", "helpWindow", "container", "window", "eventSounds"]

/-! ## `Skin.js`

A skin is the record of the fields that `getSkin` and `setWaitCursor` read and write, with an
object identity `oid` (two skins built by two calls of a constructor are different objects). -/

/-- A realized `Skin`. `ps` is the identity of its PlayStation (`none` is `null`), and
`waitPanelDisplay` the `display` style of `$waitPanel` (`none` when the skin has no
`$waitPanel`). -/
structure Skin where
  oid : Nat
  name : String
  ps : Option Nat
  waitCursorCount : Int
  waitPanelDisplay : Option String
  deriving DecidableEq

/-- The globals of `Skin.js`: the array `Skin.skinStack`, the keys of `Skin.CLASSES` (each
registered class is built by the `Skin` constructor), and the lines written by `console.log`. -/
structure SkinGlobals where
  skinStack : List Skin
  classes : List String
  console : List String
  deriving DecidableEq

/-- The number that `i < Skin.skinStack` compares `i` with: the array converted to a number.
An empty array converts to the empty string and so to 0; an array of skins converts to a text
made of `[object Object]` entries (a skin has no `toString` of its own), which is `NaN`. -/
def skinStackAsNumber (stack : List Skin) : JSNumber :=
  match stack with
  | [] => JSNumber.finite 0
  | _ :: _ => JSNumber.nan

/-- The comparison `i < n` of an index with a JavaScript number (false for `NaN`). -/
def indexLess (i : Nat) : JSNumber → Bool
  | JSNumber.nan => false
  | JSNumber.posInf => true
  | JSNumber.negInf => false
  | JSNumber.finite q => decide ((i : ℚ) < q)

/-- How the search loop of `getSkin` ends: with `return sk`, by running to its end (with the
last value of the variable `sk`), or with an error. -/
inductive SkinSearch where
  | returned (sk : Skin) : SkinSearch
  | finished (sk : Option Skin) : SkinSearch
  | thrown (e : JSError) : SkinSearch
  deriving DecidableEq

namespace Skin

/-- The constructor `new Skin(ps, name, $div)`, as far as these fields go: `ps` and `name` are
assigned when truthy (the prototype has `name: 'default'`, `ps: null`, `waitCursorCount: 0`),
and the new skin is pushed on `Skin.skinStack`. -/
def construct (g : SkinGlobals) (ps : Option Nat) (name : Option String) : SkinGlobals × Skin :=
  let sk : Skin :=
    { oid := g.skinStack.length
      name := match name with
        | none => "default"
        | some n => if n = "" then "default" else n
      ps := ps
      waitCursorCount := 0
      waitPanelDisplay := none }
  ({ g with skinStack := g.skinStack ++ [sk] }, sk)

/-- The loop `for (var i = 0; i < Skin.skinStack; i++) { sk = Skin.skinStack[i]; if (sk.name ===
skinName && sk.ps === ps) return sk; }` from index `i`, run for at most `fuel` tests of its
condition: `none` when the fuel runs out. -/
def searchLoop (stack : List Skin) (skinName : String) (ps : Nat) :
    Nat → Nat → Option Skin → Option SkinSearch
  | 0, _, _ => none
  | fuel + 1, i, sk =>
    if indexLess i (skinStackAsNumber stack) then
      match stack.get? i with
      | none => some (SkinSearch.thrown
          (JSError.typeError "Cannot read properties of undefined (reading 'name')"))
      | some s =>
        if s.name = skinName ∧ s.ps = some ps then some (SkinSearch.returned s)
        else searchLoop stack skinName ps fuel (i + 1) (some s)
    else some (SkinSearch.finished sk)

/-- `getSkin(skinName, ps, $div, $xml)` without `$xml`; `none` is a `null` argument. Returns the
globals after the call and the result, or `none` when the fuel of the search loop runs out. -/
def getSkin (fuel : Nat) (g : SkinGlobals) (skinName : Option String) (ps : Option Nat) :
    Option (Except JSError (SkinGlobals × Option Skin)) :=
  let search : Option SkinSearch :=
    match skinName, ps with
    | some n, some p =>
      if n = "" then some (SkinSearch.finished none) else searchLoop g.skinStack n p fuel 0 none
    | _, _ => some (SkinSearch.finished none)
  match search with
  | none => none
  | some (SkinSearch.thrown e) => some (.error e)
  | some (SkinSearch.returned sk) => some (.ok (g, some sk))
  | some (SkinSearch.finished sk) =>
    let key := match skinName with
      | none => "DefaultSkin"
      | some n => if n = "" then "DefaultSkin" else n
    if g.classes.contains key then
      let r := construct g ps skinName
      some (.ok (r.1, some r.2))
    else
      some (.ok ({ g with console := g.console ++
        ["Unknown skin class: " ++ (skinName.getD "null")] }, sk))

/-- `setWaitCursor(status)`; an omitted `status` is `none`. -/
def setWaitCursor (sk : Skin) (status : Option Bool) : Skin :=
  let refresh (s : Skin) : Skin :=
    match s.waitPanelDisplay with
    | none => s
    | some _ =>
      { s with waitPanelDisplay := some (if s.waitCursorCount > 0 then "inherit" else "none") }
  match status with
  | none => refresh sk
  | some true => refresh { sk with waitCursorCount := sk.waitCursorCount + 1 }
  | some false =>
    let c := sk.waitCursorCount - 1
    refresh { sk with waitCursorCount := if c < 0 then 0 else c }

end Skin

/-- A realized skin named `empty` on PlayStation 7, alone on the stack, with the class `empty`
registered. -/
def oneSkinGlobals : SkinGlobals :=
  { skinStack := [Skin.mk 0 "empty" (some 7) 0 none], classes := ["empty"], console := [] }

/-- A new skin with a wait panel: counter 0. -/
def freshSkin : Skin :=
  { oid := 0, name := "default", ps := none, waitCursorCount := 0,
    waitPanelDisplay := some "none" }

/-! ## `TextActivityDocument.js`: `TextTarget` -/

/-- The functions of `Utils.js` that `TextTarget.setProperties` calls, and the test
`!$.isEmptyObject(readDocAttributes(node))`; parameters of the model. -/
structure TextExternals where
  /-- `Utils.getVal(val, defaultValue)`; `none` is `undefined` or `null`. -/
  getVal : Option String → Option String → Option String
  /-- `Utils.getNumber(val, defaultValue)` -/
  getNumber : Option String → JSNumber → JSNumber
  /-- Whether `readDocAttributes(node)` is a non-empty object. -/
  hasDocAttributes : Element → Bool

/-- A `TextTarget`: its own properties, or the values of `TextTarget.prototype`. The property
`answers`, which `getAnswers` reads, is neither on the prototype nor assigned by any code of
`TextActivityDocument.js`, so it is `undefined` (`none`) on every target that the constructor
builds. Objects built by other classes are represented by the node they are built from. -/
structure TextTarget where
  text : String
  attr : Option Element
  isList : Bool
  numIniChars : JSNumber
  iniChar : String
  maxLenResp : JSNumber
  answer : Option (List String)
  answers : Option (List String)
  options : Option (List String)
  iniText : Option String
  infoMode : Option String
  popupContent : Option Element
  popupDelay : JSNumber
  popupMaxTime : JSNumber
  onlyPlay : Bool

/-- The `length` of a JavaScript string: the number of its UTF-16 code units. -/
def utf16Length (s : String) : Nat :=
  s.data.foldl (fun n c => n + if c.val < 65536 then 1 else 2) 0

/-- The expression `s.replace(/\t/g, '&emsp;')`. -/
def replaceTabs (s : String) : String :=
  ⟨s.data.flatMap fun c => if c = '\t' then "&emsp;".data else [c]⟩

namespace TextTarget

/-- `new TextTarget(text)`. -/
def construct (text : String) : TextTarget :=
  { text := text
    attr := none
    isList := false
    numIniChars := JSNumber.finite (utf16Length text)
    iniChar := "_"
    maxLenResp := JSNumber.finite (utf16Length text)
    answer := some [text]
    answers := none
    options := none
    iniText := none
    infoMode := some "no_info"
    popupContent := none
    popupDelay := JSNumber.finite 0
    popupMaxTime := JSNumber.finite 0
    onlyPlay := false }

/-- The body of `$xml.children().each(...)` in `setProperties`: one child node. The result is an
error when `charAt` is called on a value that is not a string. -/
def readChild (X : TextExternals) (tt : TextTarget) (node : Element) :
    Except JSError TextTarget :=
  if node.nodeName = "answer" then
    .ok { tt with answer := some (tt.answer.getD [] ++ [node.textContent]) }
  else if node.nodeName = "optionList" then
    .ok ((node.childNodes.filter fun c => c.nodeName = "option").foldl
      (fun t c => { t with isList := true, options := some (t.options.getD [] ++ [c.textContent]) })
      tt)
  else if node.nodeName = "response" then
    match X.getVal (node.getAttribute "fill") (some tt.iniChar) with
    | none => .error (JSError.typeError "Cannot read properties of null (reading 'charAt')")
    | some s =>
      .ok { tt with
        iniChar := ⟨s.data.take 1⟩
        numIniChars := X.getNumber (node.getAttribute "length") tt.numIniChars
        maxLenResp := X.getNumber (node.getAttribute "maxLength") tt.maxLenResp
        iniText := X.getVal (node.getAttribute "show") tt.iniText }
  else if node.nodeName = "info" then
    let t1 := { tt with
      infoMode := X.getVal (node.getAttribute "mode") (some "always")
      popupDelay := X.getNumber (node.getAttribute "delay") tt.popupDelay
      popupMaxTime := X.getNumber (node.getAttribute "maxTime") tt.popupMaxTime }
    let t2 := (node.childNodes.filter fun c => c.nodeName = "media").foldl
      (fun t c => { t with onlyPlay := true, popupContent := some c }) t1
    match t2.popupContent with
    | some _ => .ok t2
    | none =>
      .ok ((node.childNodes.filter fun c => c.nodeName = "cell").foldl
        (fun t c => { t with popupContent := some c }) t2)
  else if node.nodeName = "text" then
    .ok { tt with
      text := replaceTabs node.textContent
      attr := if X.hasDocAttributes node then some node else tt.attr }
  else .ok tt

/-- `setProperties($xml, mediaBag)`: every child element of the node, in order. -/
def setProperties (X : TextExternals) (tt : TextTarget) (xml : Element) :
    Except JSError TextTarget :=
  xml.childNodes.foldlM (readChild X) tt

/-- `getAnswers()`: `this.answers ? this.answers.join('|') : ''`. -/
def getAnswers (tt : TextTarget) : String :=
  match tt.answers with
  | some l => "|".intercalate l
  | none => ""

end TextTarget

/-- Sample helpers: `getVal` gives the value unless it is absent or empty, `getNumber` gives the
default, and no node has document attributes. -/
def sampleTextExternals : TextExternals :=
  { getVal := fun v d => match v with
      | none => d
      | some s => if s = "" then d else some s
    getNumber := fun _ d => d
    hasDocAttributes := fun _ => false }

/-- The node `<target><answer>dog</answer></target>`. -/
def answerDocument : Element :=
  .mk "target" [] [.mk "answer" [] [.mk "#text" [] [] "dog"] ""] ""

/-! ## `MediaContent.js` -/

/-- A `MediaContent`: the fields that `isEquivalent` and `getDescription` read. The properties
`from` and `to` are named `from_` and `to_` here. -/
structure MediaContent where
  mediaType : String
  mediaFileName : Option String
  externalParam : Option String
  from_ : JSNumber
  to_ : JSNumber
  recBuffer : JSNumber
  deriving DecidableEq

/-- The comparison `a === b` of two JavaScript numbers: `NaN` is not equal to itself. -/
def JSNumber.strictEq (a b : JSNumber) : Bool :=
  a ≠ JSNumber.nan && a = b

namespace MediaContent

/-- `isEquivalent(mc)`; `toLocaleLowerCase` is a parameter. The result is an error when a file
name that has to be compared is `null`. -/
def isEquivalent (toLocaleLowerCase : String → String) (this mc : MediaContent) :
    Except JSError Bool :=
  if this.mediaType = mc.mediaType then
    match this.mediaFileName, mc.mediaFileName with
    | some f, some g =>
      .ok (toLocaleLowerCase f = toLocaleLowerCase g &&
        this.from_.strictEq mc.from_ && this.to_.strictEq mc.to_ &&
        this.recBuffer.strictEq mc.recBuffer)
    | _, _ =>
      .error (JSError.typeError "Cannot read properties of null (reading 'toLocaleLowerCase')")
  else .ok false

/-- `getDescription()`; the conversion of a number to text is a parameter. -/
def getDescription (numberText : JSNumber → String) (this : MediaContent) : String :=
  let result := "" ++ this.mediaType
  match orNull this.mediaFileName with
  | some f =>
    let r1 := result ++ " " ++ f
    let r2 := if this.from_.isNonNegative then r1 ++ " from:" ++ numberText this.from_ else r1
    if this.to_.isNonNegative then r2 ++ " to:" ++ numberText this.to_ else r2
  | none =>
    match orNull this.externalParam with
    | some e => result ++ " " ++ e
    | none => result

end MediaContent

/-- Lower case of the letters `A` to `Z`, where it agrees with `toLocaleLowerCase`. -/
def sampleLowerCase (s : String) : String :=
  ⟨s.data.map Char.toLower⟩

/-- A sample conversion of numbers to text, right for `NaN` and the infinities; the examples do
not print finite numbers. -/
def sampleNumberText : JSNumber → String
  | JSNumber.nan => "NaN"
  | JSNumber.posInf => "Infinity"
  | JSNumber.negInf => "-Infinity"
  | JSNumber.finite _ => "0"

/-- The audio `bell.mp3`, played whole, for the recording buffer `buffer`. -/
def bellAudio (fileName : String) (buffer : ℚ) : MediaContent :=
  { mediaType := "PLAY_AUDIO", mediaFileName := some fileName, externalParam := none,
    from_ := JSNumber.finite (-1), to_ := JSNumber.finite (-1),
    recBuffer := JSNumber.finite buffer }

/-- The value of `act.scramble` for an activity `act`: no activity has a `scramble` property of
its own, so it is the object of `Activity.prototype`, kept in `Globals`. -/
def Activity.scrambleOf (g : Globals) (_act : ActivityObject) : ScrambleType :=
  g.scramble

/-- The activity node `<activity name="a" class="@panels.Menu"/>`: no `settings` node. -/
def bareActivityNode : Element :=
  .mk "activity" [("name", "a"), ("class", "@panels.Menu")] [] ""

/-- The project document `<JClicProject name="demo"><activities><activity name="a"
class="@panels.Menu"/></activities></JClicProject>`. -/
def bareProjectDocument : Element :=
  .mk "JClicProject" [("name", "demo")] [.mk "activities" [] [bareActivityNode] ""] ""

/-- The document `<activity class="toString"/>`: the class name is not registered, and it is
the name of a method of `Object.prototype`. -/
def inheritedClassDocument : Element :=
  .mk "activity" [("class", "toString")] [] ""

/-- The project `new JClicProject()`. -/
def JClicProject.construct : JClicProject := {}

/-! # Theorems -/

open ActivityPanel

/-! ## Helper lemmas -/

theorem scrambleTotal_scrambleAll (bg : List (Option ActiveBoxBag)) (k : Int) (fitInArea : Bool) :
    scrambleTotal (scrambleAll bg k fitInArea) = k * ((bg.filter Option.isSome).length : Int) := by
  induction bg with
  | nil => simp [scrambleAll, scrambleTotal]
  | cons a t ih =>
    cases a with
    | none => simpa [scrambleAll] using ih
    | some b =>
      have : scrambleAll (some b :: t) k fitInArea
          = Event.scrambleCells b k fitInArea :: scrambleAll t k fitInArea := by
        simp [scrambleAll]
      rw [this]
      simp only [scrambleTotal, ih, List.filter_cons, Option.isSome_some, if_true,
        List.length_cons]
      push_cast
      ring

theorem mem_scrambleAll (bg : List (Option ActiveBoxBag)) (k : Int) (fitInArea : Bool)
    (e : Event) (h : e ∈ scrambleAll bg k fitInArea) :
    ∃ b, some b ∈ bg ∧ e = Event.scrambleCells b k fitInArea := by
  simp only [scrambleAll, List.mem_filterMap] at h
  obtain ⟨a, ha, hm⟩ := h
  cases a with
  | none => simp at hm
  | some b =>
    simp at hm
    exact ⟨b, ha, hm.symm⟩

theorem emit_nil (p : ActivityPanel) : p.emit [] = p := by
  cases p
  simp [emit]

/-- What `shuffle` does when it is given fuel for two tests of the loop condition: for a positive
shuffle count one pass over the bags with `k = shuffles`, otherwise nothing. -/
theorem shuffle_eq (fuel : Nat) (p : ActivityPanel) (bg : List (Option ActiveBoxBag))
    (visible fitInArea : Bool) (hfuel : 2 ≤ fuel) :
    shuffle fuel p bg visible fitInArea
      = some (p.emit (if 0 < p.act.shuffles then scrambleAll bg p.act.shuffles fitInArea
          else [])) := by
  obtain ⟨f, rfl⟩ : ∃ f, fuel = f + 2 := ⟨fuel - 2, by omega⟩
  unfold shuffle
  by_cases h : 0 < p.act.shuffles
  · simp [shuffleLoop, h]
  · simp [shuffleLoop, h, emit_nil]

/-! ## C1 -/

/-- C1, as stated, fails: with a shuffle count of 1 and two non-null bags, one call to `shuffle`
requests 2 elementary scrambles in total (one of each bag), not 1. -/
theorem shuffle_total_counterexample :
    (samplePanel 1).act.shuffles = 1 ∧
    ((shuffle 2 (samplePanel 1) [some ⟨0⟩, some ⟨1⟩] false false).map
      fun q => scrambleTotal q.log) = some 2 := by
  decide

/-- C1, amended: for every list of bags (null entries allowed) and every shuffle count `n ≥ 0`,
one call to `shuffle` returns and requests `n` elementary scrambles of each non-null bag: every
`scrambleCells` call it makes is on a bag of the list with count `n`, and the counts sum up to `n`
times the number of non-null bags. -/
theorem shuffle_total_per_bag (fuel : Nat) (p : ActivityPanel) (bg : List (Option ActiveBoxBag))
    (visible fitInArea : Bool) (hfuel : 2 ≤ fuel) (hn : 0 ≤ p.act.shuffles) :
    ∃ evs, shuffle fuel p bg visible fitInArea = some (p.emit evs) ∧
      scrambleTotal evs = p.act.shuffles * ((bg.filter Option.isSome).length : Int) ∧
      ∀ e ∈ evs, ∃ b, some b ∈ bg ∧ e = Event.scrambleCells b p.act.shuffles fitInArea := by
  refine ⟨_, shuffle_eq fuel p bg visible fitInArea hfuel, ?_, ?_⟩
  · by_cases h : 0 < p.act.shuffles
    · simp only [h, if_true]
      exact scrambleTotal_scrambleAll bg _ fitInArea
    · have h0 : p.act.shuffles = 0 := by omega
      simp [h, h0, scrambleTotal]
  · intro e he
    by_cases h : 0 < p.act.shuffles
    · simp only [h, if_true] at he
      exact mem_scrambleAll bg _ fitInArea e he
    · simp [h] at he

/-- Witness of `shuffle_total_per_bag`: shuffle count 3 on two bags and a null entry. -/
theorem shuffle_total_per_bag_witness :
    ∃ evs, shuffle 2 (samplePanel 3) [some ⟨0⟩, none, some ⟨1⟩] true true
        = some ((samplePanel 3).emit evs) ∧
      scrambleTotal evs
        = (samplePanel 3).act.shuffles
          * ((([some ⟨0⟩, none, some ⟨1⟩] : List (Option ActiveBoxBag)).filter
              Option.isSome).length : Int) ∧
      ∀ e ∈ evs, ∃ b, some b ∈ ([some ⟨0⟩, none, some ⟨1⟩] : List (Option ActiveBoxBag)) ∧
        e = Event.scrambleCells b (samplePanel 3).act.shuffles true :=
  shuffle_total_per_bag 2 (samplePanel 3) [some ⟨0⟩, none, some ⟨1⟩] true true (by decide)
    (by decide)

/-! ## C2 -/

theorem setAndPlayMsg_eq (p : ActivityPanel) (msgCode eventSoundsCode : String) :
    p.setAndPlayMsg msgCode eventSoundsCode = p.emit (msgCalls p.act msgCode eventSoundsCode) := by
  unfold setAndPlayMsg msgCalls
  cases h : messageOrNull p.act msgCode with
  | null => simp [emit, playEvent]
  | message m =>
    by_cases hm : m.mediaContent = none
    · simp [emit, playEvent, hm]
    · simp [emit, playEvent, hm]
  | inherited name => simp [emit]

theorem endNotifications_msgCalls (act : Activity) (msgCode eventSoundsCode : String) :
    endNotifications (msgCalls act msgCode eventSoundsCode) = [] := by
  unfold msgCalls endNotifications
  cases h : messageOrNull act msgCode with
  | null => simp [isEndNotification]
  | message m => by_cases hm : m.mediaContent = none <;> simp [isEndNotification, hm]
  | inherited name => simp [isEndNotification]

theorem finishActivity_log (p : ActivityPanel) (r : Bool) :
    (p.finishActivity r).log =
      p.log ++ ((if p.bc ≠ none then [Event.bcEnd] else [])
        ++ (if r then msgCalls p.act "final" "finishedOk"
            else msgCalls p.act "finalError" "finishedError")
        ++ [Event.activityFinished r, Event.reportEndActivity p.act r]) := by
  unfold finishActivity
  cases r <;> by_cases hb : p.bc = none <;> simp [setAndPlayMsg_eq, emit, hb]

theorem finishActivity_fields (p : ActivityPanel) (r : Bool) :
    (p.finishActivity r).playing = false ∧ (p.finishActivity r).solved = r ∧
    (p.finishActivity r).act = p.act ∧ (p.finishActivity r).bc = p.bc := by
  unfold finishActivity
  cases r <;> by_cases hb : p.bc = none <;> simp [setAndPlayMsg_eq, emit, hb]

theorem finishActivity_endNotifications (p : ActivityPanel) (r : Bool) :
    endNotifications ((p.finishActivity r).log.drop p.log.length) =
      [Event.activityFinished r, Event.reportEndActivity p.act r] := by
  rw [finishActivity_log, List.drop_left]
  have h1 := endNotifications_msgCalls p.act "final" "finishedOk"
  have h2 := endNotifications_msgCalls p.act "finalError" "finishedError"
  unfold endNotifications at *
  cases r <;> by_cases hb : p.bc = none <;>
    simp [isEndNotification, hb, h1, h2, List.filter_cons, List.filter_append]

/-- C2: for every panel state and every boolean result `r`, `finishActivity(r)` leaves
`playing = false` and `solved = r`, and makes exactly these calls, in this order: `bc.end()` when
and only when `bc` is not null; `setMsg` with the message `final` (sound `finishedOk`) when `r` is
true and with `finalError` (sound `finishedError`) when `r` is false; then
`activityFinished(r)`; then `reportEndActivity(act, r)`. The two host notifications closing the
run occur exactly once each. -/
theorem finishActivity_effects (p : ActivityPanel) (r : Bool) :
    (p.finishActivity r).playing = false ∧
    (p.finishActivity r).solved = r ∧
    (p.finishActivity r).log =
      p.log ++ (if p.bc ≠ none then [Event.bcEnd] else [])
        ++ (if r then msgCalls p.act "final" "finishedOk"
            else msgCalls p.act "finalError" "finishedError")
        ++ [Event.activityFinished r, Event.reportEndActivity p.act r] ∧
    endNotifications ((p.finishActivity r).log.drop p.log.length) =
      [Event.activityFinished r, Event.reportEndActivity p.act r] := by
  refine ⟨(finishActivity_fields p r).1, (finishActivity_fields p r).2.1, ?_,
    finishActivity_endNotifications p r⟩
  rw [finishActivity_log]
  simp [List.append_assoc]

/-! ## C3 -/

/-- C3, as stated, fails: on a panel that is already finished (`finishActivity(true)` was called
and `playing` is false), a second `finishActivity(true)` sends the host a second
`activityFinished` / `reportEndActivity` pair. -/
theorem finishActivity_twice_counterexample :
    finishedPanel.playing = false ∧
    endNotifications ((finishedPanel.finishActivity true).log.drop finishedPanel.log.length)
      = [Event.activityFinished true, Event.reportEndActivity finishedPanel.act true] ∧
    endNotifications (finishedPanel.finishActivity true).log
      ≠ endNotifications finishedPanel.log := by
  decide

/-- C3, amended: `finishActivity` makes no phase check. For every panel and results `r1`, `r2`,
the panel is not playing after `finishActivity(r1)`, and a second call `finishActivity(r2)` sends
the host one more pair `activityFinished(r2)`, `reportEndActivity(act, r2)`: every call emits the
pair exactly once, so two calls in one run emit it twice. -/
theorem finishActivity_twice (p : ActivityPanel) (r1 r2 : Bool) :
    (p.finishActivity r1).playing = false ∧
    endNotifications (((p.finishActivity r1).finishActivity r2).log.drop p.log.length) =
      [Event.activityFinished r1, Event.reportEndActivity p.act r1,
       Event.activityFinished r2, Event.reportEndActivity p.act r2] := by
  refine ⟨(finishActivity_fields p r1).1, ?_⟩
  have h1 := finishActivity_endNotifications p r1
  have h2 := finishActivity_endNotifications (p.finishActivity r1) r2
  have hl1 := finishActivity_log p r1
  have hl2 := finishActivity_log (p.finishActivity r1) r2
  rw [(finishActivity_fields p r1).2.2.1] at h2
  rw [hl2] at h2 ⊢
  rw [List.drop_left] at h2
  rw [hl1] at h1 ⊢
  rw [List.drop_left] at h1
  rw [List.append_assoc, List.drop_left]
  unfold endNotifications at *
  rw [List.filter_append, h1, h2]
  rfl

/-! ## C4 -/

theorem end_log (p : ActivityPanel) :
    p.end_.log = p.log ++ (if p.playing then
      (if p.bc ≠ none then [Event.bcEnd] else []) ++ [Event.reportEndActivity p.act p.solved]
      else []) := by
  unfold end_ forceFinishActivity clear
  cases hp : p.playing <;> by_cases hb : p.bc = none <;> simp [emit, hb, hp]

theorem end_fields (p : ActivityPanel) :
    p.end_.playing = false ∧ p.end_.solved = (if p.playing then false else p.solved) ∧
    p.end_.act = p.act ∧ p.end_.bc = p.bc := by
  unfold end_ forceFinishActivity clear
  cases hp : p.playing <;> by_cases hb : p.bc = none <;> simp [emit, hb, hp]

/-- C4: for every panel state (playing or not, any `solved`, connector present or null), with the
base no-op hooks `forceFinishActivity` and `clear`, calling `end()` twice in a row leaves the same
log of calls (so the same sequence of `reportEndActivity` notifications) and the same final panel
state as calling it once. -/
theorem end_idempotent (p : ActivityPanel) :
    p.end_.end_ = p.end_ ∧
    endNotifications p.end_.end_.log = endNotifications p.end_.log := by
  have h : p.end_.end_ = p.end_ := by
    have hp := (end_fields p).1
    generalize p.end_ = q at hp
    unfold end_ forceFinishActivity clear
    simp [hp]
  exact ⟨h, by rw [h]⟩

/-! ## C5 -/

/-- C5, as stated, fails: on a playing panel `end()` sends the host `reportEndActivity` only,
while `finishActivity` sends `activityFinished` and `reportEndActivity`. -/
theorem end_notifications_counterexample :
    playingPanel.playing = true ∧
    endNotifications (playingPanel.end_.log.drop playingPanel.log.length)
      = [Event.reportEndActivity playingPanel.act playingPanel.solved] ∧
    endNotifications
        ((playingPanel.finishActivity playingPanel.solved).log.drop playingPanel.log.length)
      = [Event.activityFinished playingPanel.solved,
         Event.reportEndActivity playingPanel.act playingPanel.solved] := by
  decide

/-- C5, amended: for every panel, the host notifications sent by `end()` are
`reportEndActivity(act, solved)` alone, once, when the panel is playing, and none when it is not
playing; `end()` never sends `activityFinished`. -/
theorem end_notifications (p : ActivityPanel) :
    endNotifications (p.end_.log.drop p.log.length) =
      (if p.playing then [Event.reportEndActivity p.act p.solved] else []) ∧
    ∀ b, Event.activityFinished b ∉ p.end_.log.drop p.log.length := by
  rw [end_log, List.drop_left]
  cases hp : p.playing <;> by_cases hb : p.bc = none <;>
    simp [endNotifications, isEndNotification, hb, List.filter_cons]

/-! ## C6 -/

/-- C6, as stated, fails: after `initActivity`, `startActivity`, `finishActivity(true)`,
`startActivity` the panel is playing with `solved = true`, and `end()` leaves `solved = false`. -/
theorem end_solved_counterexample :
    replayedPanel.playing = true ∧ replayedPanel.solved = true ∧
    replayedPanel.end_.solved = false := by
  decide

/-- C6, amended: `end()` leaves `solved` unchanged when the panel is not playing; when the panel
is playing, `solved` is false after `end()`, whatever its value before. -/
theorem end_solved (p : ActivityPanel) :
    p.end_.solved = (if p.playing then false else p.solved) :=
  (end_fields p).2.1

/-! ## C7 -/

theorem emit_emit (p : ActivityPanel) (a b : List Event) :
    (p.emit a).emit b = p.emit (a ++ b) := by
  simp [emit, List.append_assoc]

theorem foldl_attachEvent (events : List String) (p : ActivityPanel) :
    events.foldl attachEvent p = p.emit (events.map Event.addEventListener) := by
  induction events generalizing p with
  | nil => simp [emit_nil]
  | cons e t ih => simp [List.foldl_cons, ih, attachEvent, emit_emit]

theorem attachEvents_eq (K : Settings) (p : ActivityPanel) :
    attachEvents K p = p.emit (attachCalls K p.events) := by
  unfold attachEvents attachCalls
  rw [foldl_attachEvent]
  split
  · simp [attachEvent, emit_emit]
  · simp

theorem enableCounters_eq (p : ActivityPanel) (eTime eScore eActions : Option Bool) :
    p.enableCounters eTime eScore eActions
      = p.emit (counterCalls p.act eTime eScore eActions) := by
  unfold enableCounters counterCalls
  cases eTime <;> cases eScore <;> cases eActions <;>
    cases h1 : p.act.countDownTime <;> cases h2 : p.act.countDownActions <;>
    simp [emit, h1, h2]

theorem attachCalls_not_report (K : Settings) (events : List String) :
    ∀ e ∈ attachCalls K events, isReportNotification e = false ∧ isCounterNotification e = false := by
  intro e he
  unfold attachCalls at he
  rw [List.mem_append] at he
  rcases he with he | he
  · obtain ⟨s, _, rfl⟩ := List.mem_map.1 he
    simp [isReportNotification, isCounterNotification]
  · split at he
    · simp at he
      subst he
      simp [isReportNotification, isCounterNotification]
    · simp at he

theorem counterCalls_not_report (act : Activity) (eTime eScore eActions : Option Bool) :
    ∀ e ∈ counterCalls act eTime eScore eActions, isReportNotification e = false := by
  intro e he
  unfold counterCalls at he
  cases h1 : act.countDownTime <;> cases h2 : act.countDownActions <;>
    simp [h1, h2] at he <;>
    casesm* _ ∨ _ <;> subst_vars <;> simp [isReportNotification]

/-- C7: for every panel state, `initActivity()` calls `reportEndActivity(act, previous solved)`
when and only when the panel was playing, and does so before `reportNewActivity(act, 0)`;
`reportNewActivity` is called exactly once, with start index 0, and before any counter
notification (all listener and counter calls come after it, and none of them is a report
notification); afterwards `solved` is false and `playing` is false, and `startActivity()` then
sets `playing`. -/
theorem initActivity_effects (K : Settings) (p : ActivityPanel) :
    (initActivity K p).log =
      p.log ++ (if p.playing then [Event.reportEndActivity p.act p.solved] else [])
        ++ Event.reportNewActivity p.act 0
          :: (attachCalls K p.events ++ counterCalls p.act none none none) ∧
    (∀ e ∈ attachCalls K p.events ++ counterCalls p.act none none none,
      isReportNotification e = false) ∧
    (∀ e ∈ attachCalls K p.events, isCounterNotification e = false) ∧
    (initActivity K p).solved = false ∧
    (initActivity K p).playing = false ∧
    (initActivity K p).startActivity.playing = true := by
  refine ⟨?_, ?_, ?_, ?_, ?_, ?_⟩
  · unfold initActivity
    cases hp : p.playing <;>
      simp [attachEvents_eq, enableCounters_eq, emit, hp, List.append_assoc]
  · intro e he
    rcases List.mem_append.1 he with h | h
    · exact (attachCalls_not_report K p.events e h).1
    · exact counterCalls_not_report p.act none none none e h
  · intro e he
    exact (attachCalls_not_report K p.events e he).2
  · unfold initActivity
    cases hp : p.playing <;> simp [attachEvents_eq, enableCounters_eq, emit, hp]
  · unfold initActivity
    cases hp : p.playing <;> simp [attachEvents_eq, enableCounters_eq, emit, hp]
  · simp [startActivity]

/-! ## Geometry: `fitTo` -/

/-- The `proposed` rectangle as `fitTo` leaves it: shrunk by the absolute position when the
activity is absolutely positioned and has one. -/
theorem fitTo_proposed (K : Settings) (p : ActivityPanel) (proposed bounds : Rectangle) :
    (fitTo K p proposed bounds).2 =
      (match p.act.absolutePositioned, p.act.absolutePosition with
        | true, some ap =>
          { proposed with dim := ⟨proposed.dim.width - ap.x, proposed.dim.height - ap.y⟩ }
        | _, _ => proposed) := by
  unfold fitTo
  cases p.act.absolutePositioned <;> cases p.act.absolutePosition <;> rfl

/-- The size given to `setBounds` by `fitTo`. -/
theorem fitTo_dim (K : Settings) (p : ActivityPanel) (proposed bounds : Rectangle) :
    (fitTo K p proposed bounds).1.dim =
      ⟨min (max (2 * p.act.margin + K.MINIMUM_WIDTH) (fitTo K p proposed bounds).2.dim.width)
          p.act.windowSize.width,
       min (max (2 * p.act.margin + K.MINIMUM_HEIGHT) (fitTo K p proposed bounds).2.dim.height)
          p.act.windowSize.height⟩ := by
  unfold fitTo
  cases p.act.absolutePositioned <;> cases p.act.absolutePosition <;>
    simp [setDimension, setBounds, emit]

/-- Whenever the size computed by `fitTo` is not larger than `bounds`, the rectangle given to
`setBounds` ends inside `bounds` in that axis. -/
theorem fitTo_within_bounds_of_fits (K : Settings) (p : ActivityPanel)
    (proposed bounds : Rectangle) :
    ((fitTo K p proposed bounds).1.dim.width ≤ bounds.dim.width →
      (fitTo K p proposed bounds).1.pos.x + (fitTo K p proposed bounds).1.dim.width
        ≤ bounds.dim.width) ∧
    ((fitTo K p proposed bounds).1.dim.height ≤ bounds.dim.height →
      (fitTo K p proposed bounds).1.pos.y + (fitTo K p proposed bounds).1.dim.height
        ≤ bounds.dim.height) := by
  unfold fitTo
  constructor <;> intro h <;>
    cases hap : p.act.absolutePositioned <;> cases hpos : p.act.absolutePosition <;>
    simp only [setDimension, setBounds, emit, hap, hpos] at h ⊢ <;>
    simp only [Bool.not_true, Bool.not_false, if_true, if_false, Bool.false_eq_true] at h ⊢ <;>
    split_ifs <;> simp only [] <;>
    first
      | linarith
      | (rw [max_eq_right (by linarith)]; linarith)

/-! ## C8 -/

/-- C8, the code at a failing input: with margin 0, window size 500x400, minimum content size
40x40 and no absolute position, `fitTo(proposed = (0, 0, 200, 150), bounds = (0, 0, 50, 50))`
gives `setBounds` the rectangle `(0, 0, 200, 150)`, which exceeds `bounds` in both axes. -/
theorem fitTo_exceeds_bounds :
    (fitTo sampleSettings (samplePanel 1) ⟨⟨0, 0⟩, ⟨200, 150⟩⟩ ⟨⟨0, 0⟩, ⟨50, 50⟩⟩).1.pos = ⟨0, 0⟩ ∧
    (fitTo sampleSettings (samplePanel 1) ⟨⟨0, 0⟩, ⟨200, 150⟩⟩ ⟨⟨0, 0⟩, ⟨50, 50⟩⟩).1.dim
      = ⟨200, 150⟩ ∧
    ¬ ((fitTo sampleSettings (samplePanel 1) ⟨⟨0, 0⟩, ⟨200, 150⟩⟩ ⟨⟨0, 0⟩, ⟨50, 50⟩⟩).1.pos.x
        + (fitTo sampleSettings (samplePanel 1) ⟨⟨0, 0⟩, ⟨200, 150⟩⟩ ⟨⟨0, 0⟩, ⟨50, 50⟩⟩).1.dim.width
        ≤ (⟨⟨0, 0⟩, ⟨50, 50⟩⟩ : Rectangle).dim.width) ∧
    ¬ ((fitTo sampleSettings (samplePanel 1) ⟨⟨0, 0⟩, ⟨200, 150⟩⟩ ⟨⟨0, 0⟩, ⟨50, 50⟩⟩).1.pos.y
        + (fitTo sampleSettings (samplePanel 1) ⟨⟨0, 0⟩, ⟨200, 150⟩⟩ ⟨⟨0, 0⟩, ⟨50, 50⟩⟩).1.dim.height
        ≤ (⟨⟨0, 0⟩, ⟨50, 50⟩⟩ : Rectangle).dim.height) := by
  norm_num [fitTo, setDimension, setBounds, emit, samplePanel, sampleActivity, sampleSettings]

/-! ## C9 -/

/-- C9, as stated, fails: with margin 0, minimum content size 40x40 and window size 30x30 the
size computed by `fitTo` is 30x30, below the minimum `2 * margin + 40 = 40` in both axes. -/
theorem fitTo_size_counterexample :
    (fitTo sampleSettings smallWindowPanel ⟨⟨0, 0⟩, ⟨200, 150⟩⟩ ⟨⟨0, 0⟩, ⟨1000, 800⟩⟩).1.dim
      = ⟨30, 30⟩ ∧
    ¬ (2 * smallWindowPanel.act.margin + sampleSettings.MINIMUM_WIDTH
        ≤ (fitTo sampleSettings smallWindowPanel ⟨⟨0, 0⟩, ⟨200, 150⟩⟩
            ⟨⟨0, 0⟩, ⟨1000, 800⟩⟩).1.dim.width) ∧
    ¬ (2 * smallWindowPanel.act.margin + sampleSettings.MINIMUM_HEIGHT
        ≤ (fitTo sampleSettings smallWindowPanel ⟨⟨0, 0⟩, ⟨200, 150⟩⟩
            ⟨⟨0, 0⟩, ⟨1000, 800⟩⟩).1.dim.height) := by
  norm_num [fitTo, setDimension, setBounds, emit, smallWindowPanel, samplePanel, sampleActivity,
    sampleSettings]

/-- C9, amended: for every proposed rectangle and descriptor, in both positioning modes, the size
computed by `fitTo` never exceeds the preferred size (`width ≤ windowSize.width` and
`height ≤ windowSize.height`), and it is at least the minimum in each axis in which the preferred
size is itself at least the minimum: `2 * margin + MINIMUM_WIDTH ≤ width` when
`2 * margin + MINIMUM_WIDTH ≤ windowSize.width`, and `2 * margin + MINIMUM_HEIGHT ≤ height` when
`2 * margin + MINIMUM_HEIGHT ≤ windowSize.height`. -/
theorem fitTo_size_bounds (K : Settings) (p : ActivityPanel) (proposed bounds : Rectangle) :
    (fitTo K p proposed bounds).1.dim.width ≤ p.act.windowSize.width ∧
    (fitTo K p proposed bounds).1.dim.height ≤ p.act.windowSize.height ∧
    (2 * p.act.margin + K.MINIMUM_WIDTH ≤ p.act.windowSize.width →
      2 * p.act.margin + K.MINIMUM_WIDTH ≤ (fitTo K p proposed bounds).1.dim.width) ∧
    (2 * p.act.margin + K.MINIMUM_HEIGHT ≤ p.act.windowSize.height →
      2 * p.act.margin + K.MINIMUM_HEIGHT ≤ (fitTo K p proposed bounds).1.dim.height) := by
  rw [fitTo_dim]
  refine ⟨min_le_right _ _, min_le_right _ _, ?_, ?_⟩
  · intro h
    exact le_min (le_max_left _ _) h
  · intro h
    exact le_min (le_max_left _ _) h

/-- Witness of `fitTo_size_bounds`: the sample panel (window size 500x400, margin 0) with minimum
content size 40x40. -/
theorem fitTo_size_bounds_witness :
    (2 * (samplePanel 1).act.margin + sampleSettings.MINIMUM_WIDTH
      ≤ (samplePanel 1).act.windowSize.width) ∧
    (2 * (samplePanel 1).act.margin + sampleSettings.MINIMUM_HEIGHT
      ≤ (samplePanel 1).act.windowSize.height) ∧
    2 * (samplePanel 1).act.margin + sampleSettings.MINIMUM_WIDTH
      ≤ (fitTo sampleSettings (samplePanel 1) ⟨⟨0, 0⟩, ⟨20, 15⟩⟩
          ⟨⟨0, 0⟩, ⟨1000, 800⟩⟩).1.dim.width ∧
    2 * (samplePanel 1).act.margin + sampleSettings.MINIMUM_HEIGHT
      ≤ (fitTo sampleSettings (samplePanel 1) ⟨⟨0, 0⟩, ⟨20, 15⟩⟩
          ⟨⟨0, 0⟩, ⟨1000, 800⟩⟩).1.dim.height :=
  have hw : 2 * (samplePanel 1).act.margin + sampleSettings.MINIMUM_WIDTH
      ≤ (samplePanel 1).act.windowSize.width := by
    norm_num [samplePanel, sampleActivity, sampleSettings]
  have hh : 2 * (samplePanel 1).act.margin + sampleSettings.MINIMUM_HEIGHT
      ≤ (samplePanel 1).act.windowSize.height := by
    norm_num [samplePanel, sampleActivity, sampleSettings]
  ⟨hw, hh,
    (fitTo_size_bounds sampleSettings (samplePanel 1) ⟨⟨0, 0⟩, ⟨20, 15⟩⟩
      ⟨⟨0, 0⟩, ⟨1000, 800⟩⟩).2.2.1 hw,
    (fitTo_size_bounds sampleSettings (samplePanel 1) ⟨⟨0, 0⟩, ⟨20, 15⟩⟩
      ⟨⟨0, 0⟩, ⟨1000, 800⟩⟩).2.2.2 hh⟩

/-! ## C10 -/

/-- C10: when the descriptor is not absolutely positioned, `fitTo` gives `setBounds` the size
`d = centredSize` and, in each axis, the origin `proposed.pos + (proposed.dim - d) / 2` whenever
that coordinate is non-negative and the rectangle placed there ends inside `bounds`; `proposed`
is left as it was. In the scenario `proposed = (0, 0, 200, 150)`, `bounds` 1000x800, window size
500x400, margin 0 and a minimum content size of at most 200x150, the rectangle is
`(0, 0, 200, 150)`. -/
theorem fitTo_centred :
    (∀ (K : Settings) (p : ActivityPanel) (proposed bounds : Rectangle),
      p.act.absolutePositioned = false →
      (fitTo K p proposed bounds).1.dim = centredSize K p.act proposed ∧
      (fitTo K p proposed bounds).2 = proposed ∧
      (0 ≤ proposed.pos.x + (proposed.dim.width - (centredSize K p.act proposed).width) / 2 →
        proposed.pos.x + (proposed.dim.width - (centredSize K p.act proposed).width) / 2
          + (centredSize K p.act proposed).width ≤ bounds.dim.width →
        (fitTo K p proposed bounds).1.pos.x
          = proposed.pos.x + (proposed.dim.width - (centredSize K p.act proposed).width) / 2) ∧
      (0 ≤ proposed.pos.y + (proposed.dim.height - (centredSize K p.act proposed).height) / 2 →
        proposed.pos.y + (proposed.dim.height - (centredSize K p.act proposed).height) / 2
          + (centredSize K p.act proposed).height ≤ bounds.dim.height →
        (fitTo K p proposed bounds).1.pos.y
          = proposed.pos.y
            + (proposed.dim.height - (centredSize K p.act proposed).height) / 2)) ∧
    (∀ (K : Settings) (p : ActivityPanel) (boundsPos : Point),
      p.act.absolutePositioned = false → p.act.margin = 0 → p.act.windowSize = ⟨500, 400⟩ →
      K.MINIMUM_WIDTH ≤ 200 → K.MINIMUM_HEIGHT ≤ 150 →
      (fitTo K p ⟨⟨0, 0⟩, ⟨200, 150⟩⟩ ⟨boundsPos, ⟨1000, 800⟩⟩).1.pos = ⟨0, 0⟩ ∧
      (fitTo K p ⟨⟨0, 0⟩, ⟨200, 150⟩⟩ ⟨boundsPos, ⟨1000, 800⟩⟩).1.dim = ⟨200, 150⟩) := by
  constructor
  · intro K p proposed bounds hna
    refine ⟨?_, ?_, ?_, ?_⟩
    · unfold fitTo centredSize
      simp [hna, setDimension, setBounds, emit]
    · rw [fitTo_proposed]
      simp [hna]
    · intro h0 hb
      unfold centredSize at h0 hb ⊢
      unfold fitTo
      simp only [hna, setDimension, setBounds, emit] at h0 hb ⊢
      simp only [Bool.not_false, if_true, max_eq_right h0] at h0 hb ⊢
      split_ifs <;> simp only [] <;> first | rfl | (exfalso; linarith)
    · intro h0 hb
      unfold centredSize at h0 hb ⊢
      unfold fitTo
      simp only [hna, setDimension, setBounds, emit] at h0 hb ⊢
      simp only [Bool.not_false, if_true, max_eq_right h0] at h0 hb ⊢
      split_ifs <;> simp only [] <;> first | rfl | (exfalso; linarith)
  · intro K p boundsPos hna hm hws hw hh
    unfold fitTo
    simp only [hna, hm, hws, setDimension, setBounds, emit]
    have e1 : max K.MINIMUM_WIDTH 200 = 200 := max_eq_right hw
    have e2 : max K.MINIMUM_HEIGHT 150 = 150 := max_eq_right hh
    norm_num [e1, e2]

/-- Witness of `fitTo_centred`: the scenario of the claim on the sample panel with minimum
content size 40x40, and the general statement at `proposed = (10, 20, 200, 150)`. -/
theorem fitTo_centred_witness :
    (samplePanel 1).act.absolutePositioned = false ∧
    (fitTo sampleSettings (samplePanel 1) ⟨⟨0, 0⟩, ⟨200, 150⟩⟩ ⟨⟨0, 0⟩, ⟨1000, 800⟩⟩).1.pos
      = ⟨0, 0⟩ ∧
    (fitTo sampleSettings (samplePanel 1) ⟨⟨0, 0⟩, ⟨200, 150⟩⟩ ⟨⟨0, 0⟩, ⟨1000, 800⟩⟩).1.dim
      = ⟨200, 150⟩ ∧
    (fitTo sampleSettings (samplePanel 1) ⟨⟨10, 20⟩, ⟨600, 150⟩⟩ ⟨⟨0, 0⟩, ⟨1000, 800⟩⟩).1.pos.x
      = 10 + (600 - (centredSize sampleSettings (samplePanel 1).act
          ⟨⟨10, 20⟩, ⟨600, 150⟩⟩).width) / 2 :=
  have hs := fitTo_centred.2 sampleSettings (samplePanel 1) ⟨0, 0⟩ rfl rfl rfl
    (by norm_num [sampleSettings]) (by norm_num [sampleSettings])
  ⟨rfl, hs.1, hs.2,
    (fitTo_centred.1 sampleSettings (samplePanel 1) ⟨⟨10, 20⟩, ⟨600, 150⟩⟩
      ⟨⟨0, 0⟩, ⟨1000, 800⟩⟩ rfl).2.2.1
      (by norm_num [centredSize, samplePanel, sampleActivity, sampleSettings])
      (by norm_num [centredSize, samplePanel, sampleActivity, sampleSettings])⟩

/-! ## C11: class identifiers -/

theorem normalizeClassName_legacy (s : String) :
    normalizeClassName (legacyPrefix ++ s) = "@" ++ s := by
  unfold normalizeClassName
  have h : legacyPrefix.data.isPrefixOf (legacyPrefix ++ s).data = true := by
    rw [String.data_append, List.isPrefixOf_iff_prefix]
    exact List.prefix_append _ _
  rw [if_pos h]
  apply String.ext
  rw [String.data_append, String.data_append, List.drop_left]
  rfl

theorem normalizeClassName_of_not_prefix (s : String)
    (h : legacyPrefix.data.isPrefixOf s.data = false) : normalizeClassName s = s := by
  unfold normalizeClassName
  simp [h]

theorem not_prefix_at (s : String) : legacyPrefix.data.isPrefixOf ("@" ++ s).data = false := by
  rw [String.data_append]
  rfl

theorem normalizeClassName_at (s : String) : normalizeClassName ("@" ++ s) = "@" ++ s :=
  normalizeClassName_of_not_prefix _ (not_prefix_at s)

theorem normalizeClassName_cases (t : String) :
    (∃ r, t = legacyPrefix ++ r ∧ normalizeClassName t = "@" ++ r) ∨
      (legacyPrefix.data.isPrefixOf t.data = false ∧ normalizeClassName t = t) := by
  cases h : legacyPrefix.data.isPrefixOf t.data with
  | false => exact Or.inr ⟨rfl, normalizeClassName_of_not_prefix t h⟩
  | true =>
    left
    rw [List.isPrefixOf_iff_prefix] at h
    obtain ⟨r, hr⟩ := h
    have ht : t = legacyPrefix ++ ⟨r⟩ := by
      apply String.ext
      rw [String.data_append, hr]
    exact ⟨⟨r⟩, ht, by rw [ht]; exact normalizeClassName_legacy _⟩

theorem normalizeClassName_idempotent (t : String) :
    normalizeClassName (normalizeClassName t) = normalizeClassName t := by
  rcases normalizeClassName_cases t with ⟨r, _, hr⟩ | ⟨_, h⟩
  · rw [hr, normalizeClassName_at]
  · rw [h, h]

/-- C11: for every string `s`, an element whose `class` attribute is
`"edu.xtec.jclic.activities." ++ s` and one whose `class` attribute is `"@" ++ s` are looked up by
`Activity.getActivity` under the same registry key `"@" ++ s`, and `setProperties` stores
`"@" ++ s` as `className` for both. The normalisation replaces the leading prefix only: the rest
of the identifier is kept as it is (case included), an identifier that does not start with the
prefix is unchanged, and normalising twice is the same as normalising once. -/
theorem classKey_legacy_prefix (s : String) (xml1 xml2 : Element)
    (h1 : xml1.getAttribute "class" = some ("edu.xtec.jclic.activities." ++ s))
    (h2 : xml2.getAttribute "class" = some ("@" ++ s)) :
    Activity.classKey xml1 = "@" ++ s ∧ Activity.classKey xml2 = "@" ++ s ∧
    (∀ (U : Externals) (a : ActivityObject),
      (Activity.readAttribute U a ("class", "edu.xtec.jclic.activities." ++ s)).className
        = some ("@" ++ s) ∧
      (Activity.readAttribute U a ("class", "@" ++ s)).className = some ("@" ++ s)) ∧
    (∀ t : String,
      (∃ r, t = "edu.xtec.jclic.activities." ++ r ∧ normalizeClassName t = "@" ++ r) ∨
      (("edu.xtec.jclic.activities.".data.isPrefixOf t.data = false) ∧
        normalizeClassName t = t)) ∧
    (∀ t : String, normalizeClassName (normalizeClassName t) = normalizeClassName t) := by
  refine ⟨?_, ?_, ?_, normalizeClassName_cases, normalizeClassName_idempotent⟩
  · unfold Activity.classKey
    rw [h1]
    exact normalizeClassName_legacy s
  · unfold Activity.classKey
    rw [h2]
    exact normalizeClassName_at s
  · intro U a
    constructor
    · have := normalizeClassName_legacy s
      simp only [Activity.readAttribute]
      simpa using this
    · have := normalizeClassName_at s
      simp only [Activity.readAttribute]
      simpa using this

/-- Witness of `classKey_legacy_prefix`: `edu.xtec.jclic.activities.puzzles.Unknown` and
`@puzzles.Unknown`. -/
theorem classKey_legacy_prefix_witness :
    Activity.classKey unknownClassDocument = "@puzzles.Unknown" ∧
    Activity.classKey (.mk "activity" [("class", "@puzzles.Unknown")] [] "")
      = "@puzzles.Unknown" :=
  have h := classKey_legacy_prefix "puzzles.Unknown" unknownClassDocument
    (.mk "activity" [("class", "@puzzles.Unknown")] [] "") (by decide) (by decide)
  ⟨h.1, h.2.1⟩

/-! ## C12: resolution failures in `getActivity` -/

/-- C12, a counterexample: the class name `toString` is not registered in `Activity.CLASSES`,
yet `Activity.getActivity` does not return `null`: the lookup finds the method that the registry
inherits from `Object.prototype`, and `new cl(project)` throws a `TypeError`. -/
theorem getActivity_counterexample :
    (Activity.CLASSES.lookup (Activity.classKey inheritedClassDocument)).isNone = true ∧
    Activity.getActivity sampleExternals sampleSettings Activity.CLASSES Globals.initial
        (some inheritedClassDocument) (some sampleProject)
      = .error (JSError.typeError "cl is not a constructor") := by
  exact ⟨rfl, rfl⟩

/-- C12, amended: `Activity.getActivity` returns `null` and does not throw when the element is
null, when the project is null, and when the key computed from the `class` attribute (the empty
string when the attribute is missing) is neither registered nor the name of a property
inherited from `Object.prototype`; in the last case one error message is logged. When the key
is not registered and is such an inherited name, the call throws. It returns an activity only
when both arguments are non-null and the key is registered. -/
theorem getActivity_unresolved (U : Externals) (K : Settings)
    (classes : List (String × ActivityClass)) (g : Globals) :
    (∀ project, Activity.getActivity U K classes g none project = .ok (g, none)) ∧
    (∀ xml, Activity.getActivity U K classes g xml none = .ok (g, none)) ∧
    (∀ xml project, classes.lookup (Activity.classKey xml) = none →
      Activity.classKey xml ∉ objectPrototypeNames →
      Activity.getActivity U K classes g (some xml) (some project)
        = .ok ({ g with errors :=
            g.errors ++ ["Unknown activity class: " ++ Activity.classKey xml] }, none)) ∧
    (∀ xml project, classes.lookup (Activity.classKey xml) = none →
      Activity.classKey xml ∈ objectPrototypeNames →
      ∃ e, Activity.getActivity U K classes g (some xml) (some project) = .error e) ∧
    (∀ xml, xml.getAttribute "class" = none →
      Activity.classKey xml = "" ∧ Activity.classKey xml ∉ objectPrototypeNames) ∧
    (∀ xml project g1 act,
      Activity.getActivity U K classes g xml project = .ok (g1, some act) →
      ∃ x p cl, xml = some x ∧ project = some p ∧
        classes.lookup (Activity.classKey x) = some cl) := by
  refine ⟨?_, ?_, ?_, ?_, ?_, ?_⟩
  · intro project
    simp [Activity.getActivity]
  · intro xml
    cases xml <;> simp [Activity.getActivity]
  · intro xml project h hn
    have hc : Activity.classKey xml ≠ "constructor" := by
      intro hc
      exact hn (by rw [hc]; decide)
    simp [Activity.getActivity, h, hc, hn]
  · intro xml project h hin
    by_cases hc : Activity.classKey xml = "constructor"
    · have h2 : classes.lookup "constructor" = none := hc ▸ h
      exact ⟨(JClicProject.setProperties U project xml none none).2,
        by simp [Activity.getActivity, hc, h2]⟩
    · exact ⟨JSError.typeError "cl is not a constructor",
        by simp [Activity.getActivity, h, hc, hin]⟩
  · intro xml h
    have hk : Activity.classKey xml = "" := by
      unfold Activity.classKey
      rw [h]
      rfl
    exact ⟨hk, by rw [hk]; decide⟩
  · intro xml project g1 act h
    cases xml with
    | none => simp [Activity.getActivity] at h
    | some x =>
      cases project with
      | none => simp [Activity.getActivity] at h
      | some p =>
        cases hl : classes.lookup (Activity.classKey x) with
        | none =>
          by_cases hc : Activity.classKey x = "constructor"
          · have h2 : classes.lookup "constructor" = none := hc ▸ hl
            simp [Activity.getActivity, hc, h2] at h
          · by_cases hin : Activity.classKey x ∈ objectPrototypeNames
            · simp [Activity.getActivity, hl, hc, hin] at h
            · simp [Activity.getActivity, hl, hc, hin] at h
        | some cl => exact ⟨x, p, cl, rfl, rfl, hl⟩

/-- Witness of `getActivity_unresolved`: the class `edu.xtec.jclic.activities.puzzles.Unknown`
is neither in `Activity.CLASSES` nor an inherited name, the class `toString` is not in
`Activity.CLASSES` and is an inherited name, and an element without `class` attribute has the
key `""`. -/
theorem getActivity_unresolved_witness :
    Activity.getActivity sampleExternals sampleSettings Activity.CLASSES Globals.initial
        (some unknownClassDocument) (some sampleProject)
      = .ok ({ Globals.initial with errors :=
          Globals.initial.errors ++ ["Unknown activity class: "
            ++ Activity.classKey unknownClassDocument] }, none) ∧
    (∃ e, Activity.getActivity sampleExternals sampleSettings Activity.CLASSES Globals.initial
        (some inheritedClassDocument) (some sampleProject) = .error e) ∧
    (Activity.classKey plainDocument = "" ∧
      Activity.classKey plainDocument ∉ objectPrototypeNames) :=
  have h := getActivity_unresolved sampleExternals sampleSettings Activity.CLASSES Globals.initial
  ⟨h.2.2.1 unknownClassDocument sampleProject rfl (by decide),
    h.2.2.2.1 inheritedClassDocument sampleProject rfl (by decide),
    h.2.2.2.2.1 plainDocument rfl⟩

/-! ## C15 -/

/-- C15: when the shuffle count of the descriptor is 0, `shuffle(bags, visible, fitInArea)`
returns without calling `scrambleCells` on any bag, for every list of bags and both values of
`visible` and `fitInArea`: the panel and its log are left as they were. -/
theorem shuffle_zero (fuel : Nat) (p : ActivityPanel) (bg : List (Option ActiveBoxBag))
    (visible fitInArea : Bool) (hfuel : 1 ≤ fuel) (h0 : p.act.shuffles = 0) :
    shuffle fuel p bg visible fitInArea = some p := by
  obtain ⟨f, rfl⟩ : ∃ f, fuel = f + 1 := ⟨fuel - 1, by omega⟩
  unfold shuffle
  simp [shuffleLoop, h0]

/-- Witness of `shuffle_zero`: shuffle count 0 on two bags. -/
theorem shuffle_zero_witness :
    (samplePanel 0).act.shuffles = 0 ∧
    shuffle 1 (samplePanel 0) [some ⟨0⟩, some ⟨1⟩] true false = some (samplePanel 0) :=
  ⟨rfl, shuffle_zero 1 (samplePanel 0) [some ⟨0⟩, some ⟨1⟩] true false (by decide) rfl⟩

/-! ## C16 -/

/-- C16, a counterexample: the sample descriptor has no message of type `toString`, yet
`setAndPlayMsg('toString', 'click')` does not give `null` to `setMsg` and does not play the
event sound: the lookup finds the method that `messages` inherits from `Object.prototype`. -/
theorem setAndPlayMsg_counterexample :
    (samplePanel 0).act.messages.lookup "toString" = none ∧
    ((samplePanel 0).setAndPlayMsg "toString" "click").log
      = [Event.setMsg (MessageValue.inherited "toString")] := by
  exact ⟨rfl, rfl⟩

/-- C16, amended: for every message code and event-sound code, `setAndPlayMsg` changes nothing
but the log and calls `setMsg` first. When the descriptor has a message under the code,
`setMsg` receives it, and the event sound is played when and only when the message carries no
media of its own. When it has none and the code is not the name of a property inherited from
`Object.prototype`, `setMsg` receives `null` and the event sound is played. When it has none
and the code is such a name, `setMsg` receives the inherited value and no sound is played.
There is no other call. -/
theorem setAndPlayMsg_effects (p : ActivityPanel) (msgCode eventSoundsCode : String) :
    (∀ m, p.act.messages.lookup msgCode = some m →
      p.setAndPlayMsg msgCode eventSoundsCode
        = { p with log := p.log ++ Event.setMsg (MessageValue.message m) ::
              (if m.mediaContent = none then [Event.playEvent eventSoundsCode] else []) }) ∧
    (p.act.messages.lookup msgCode = none → msgCode ∉ objectPrototypeNames →
      p.setAndPlayMsg msgCode eventSoundsCode
        = { p with log := p.log ++
              [Event.setMsg MessageValue.null, Event.playEvent eventSoundsCode] }) ∧
    (p.act.messages.lookup msgCode = none → msgCode ∈ objectPrototypeNames →
      p.setAndPlayMsg msgCode eventSoundsCode
        = { p with log := p.log ++ [Event.setMsg (MessageValue.inherited msgCode)] }) := by
  refine ⟨?_, ?_, ?_⟩
  · intro m h
    unfold setAndPlayMsg messageOrNull
    by_cases hm : m.mediaContent = none <;> simp [h, emit, playEvent, hm]
  · intro h hn
    unfold setAndPlayMsg messageOrNull
    simp [h, hn, emit, playEvent]
  · intro h hin
    unfold setAndPlayMsg messageOrNull
    simp [h, hin, emit]

/-- Witness of `setAndPlayMsg_effects` on the sample panel, whose only message is `final`,
without media: the codes `final` (a message), `initial` (no message, not an inherited name) and
`valueOf` (no message, an inherited name). -/
theorem setAndPlayMsg_effects_witness :
    ((samplePanel 0).setAndPlayMsg "final" "finishedOk"
      = (samplePanel 0).emit [Event.setMsg (MessageValue.message ⟨"Well done", none⟩),
          Event.playEvent "finishedOk"]) ∧
    ((samplePanel 0).setAndPlayMsg "initial" "start"
      = (samplePanel 0).emit [Event.setMsg MessageValue.null, Event.playEvent "start"]) ∧
    ((samplePanel 0).setAndPlayMsg "valueOf" "start"
      = (samplePanel 0).emit [Event.setMsg (MessageValue.inherited "valueOf")]) :=
  ⟨(setAndPlayMsg_effects (samplePanel 0) "final" "finishedOk").1 ⟨"Well done", none⟩ rfl,
    (setAndPlayMsg_effects (samplePanel 0) "initial" "start").2.1 rfl (by decide),
    (setAndPlayMsg_effects (samplePanel 0) "valueOf" "start").2.2 rfl (by decide)⟩

/-! ## C17 -/

/-- C17: for every call `enableCounters(eTime, eScore, eActions)`, the host receives exactly one
`setCounterEnabled` call for each of `time`, `score` and `actions`, in this order; the value
sent is the argument when it is given (also when it is `false`) and the flag `bTimeCounter`,
`bScoreCounter` or `bActionsCounter` of the descriptor when the argument is omitted. -/
theorem enableCounters_flags (p : ActivityPanel) (eTime eScore eActions : Option Bool) :
    ((p.enableCounters eTime eScore eActions).log.drop p.log.length).filter isSetCounterEnabled
      = [Event.setCounterEnabled "time" (eTime.getD p.act.bTimeCounter),
         Event.setCounterEnabled "score" (eScore.getD p.act.bScoreCounter),
         Event.setCounterEnabled "actions" (eActions.getD p.act.bActionsCounter)] ∧
    (∀ b : Bool, (some b).getD p.act.bTimeCounter = b) ∧
    (none : Option Bool).getD p.act.bTimeCounter = p.act.bTimeCounter := by
  refine ⟨?_, fun b => rfl, rfl⟩
  rw [enableCounters_eq]
  simp only [emit, List.drop_left]
  unfold counterCalls
  cases p.act.countDownTime <;> cases p.act.countDownActions <;>
    simp [isSetCounterEnabled, List.filter_cons]

/-! ## C18 -/

/-- C18, as stated, fails: with `countDownTime = true` and `maxTime = 0`, `enableCounters()`
pushes `setCountDown('time', 0)` to the host although `maxTime > 0` does not hold. -/
theorem enableCounters_countDown_counterexample :
    countDownPanel.act.countDownTime = true ∧ countDownPanel.act.maxTime = 0 ∧
    Event.setCountDown "time" 0 ∈ (countDownPanel.enableCounters none none none).log := by
  decide

/-- C18, amended: every call to `enableCounters` pushes `setCountDown('time', maxTime)` when and
only when `countDownTime` is true, and `setCountDown('actions', maxActions)` when and only when
`countDownActions` is true, whatever the values of `maxTime` and `maxActions`; a second call
makes the same calls again. -/
theorem enableCounters_countDown (p : ActivityPanel) (eTime eScore eActions : Option Bool) :
    (∀ v, Event.setCountDown "time" v
        ∈ (p.enableCounters eTime eScore eActions).log.drop p.log.length ↔
      (p.act.countDownTime = true ∧ v = p.act.maxTime)) ∧
    (∀ v, Event.setCountDown "actions" v
        ∈ (p.enableCounters eTime eScore eActions).log.drop p.log.length ↔
      (p.act.countDownActions = true ∧ v = p.act.maxActions)) ∧
    ((p.enableCounters eTime eScore eActions).enableCounters eTime eScore eActions).log
      = p.log ++ (p.enableCounters eTime eScore eActions).log.drop p.log.length
          ++ (p.enableCounters eTime eScore eActions).log.drop p.log.length := by
  rw [enableCounters_eq, enableCounters_eq]
  simp only [emit, List.drop_left]
  refine ⟨?_, ?_, ?_⟩
  · intro v
    unfold counterCalls
    cases p.act.countDownTime <;> cases p.act.countDownActions <;> simp
  · intro v
    unfold counterCalls
    cases p.act.countDownTime <;> cases p.act.countDownActions <;> simp
  · simp

/-! ## Reading a document: helper lemmas -/

theorem foldl_preserves {α β γ : Type} (f : α → β → α) (proj : α → γ)
    (h : ∀ a x, proj (f a x) = proj a) (l : List β) (a : α) :
    proj (l.foldl f a) = proj a := by
  induction l generalizing a with
  | nil => rfl
  | cons x t ih => rw [List.foldl_cons, ih, h]

theorem foldlM_invariant {σ β ε : Type} (f : σ → β → Except ε σ) (I : σ → Prop) (l : List β)
    (hstep : ∀ s x s', x ∈ l → I s → f s x = .ok s' → I s') :
    ∀ s s', I s → l.foldlM f s = .ok s' → I s' := by
  induction l with
  | nil =>
    intro s s' hI h
    simp only [List.foldlM_nil, pure, Except.pure, Except.ok.injEq] at h
    exact h ▸ hI
  | cons x t ih =>
    intro s s' hI h
    rw [List.foldlM_cons] at h
    cases hx : f s x with
    | error e => rw [hx] at h; cases h
    | ok s1 =>
      rw [hx] at h
      exact ih (fun s x s' hm => hstep s x s' (List.mem_cons_of_mem _ hm)) s1 s'
        (hstep s x s1 (List.mem_cons_self _ _) hI hx) h

theorem ite_pred {α : Type} (P : α → Prop) (c : Prop) [Decidable c] (x y : α)
    (hx : c → P x) (hy : ¬c → P y) : P (if c then x else y) := by
  by_cases h : c
  · rw [if_pos h]; exact hx h
  · rw [if_neg h]; exact hy h

theorem readAttribute_limits (U : Externals) (a : ActivityObject) (attr : String × String) :
    limitsOf (Activity.readAttribute U a attr) = limitsOf a := by
  unfold Activity.readAttribute
  try dsimp only
  repeat' (first | rfl | refine ite_pred (fun z => limitsOf z = limitsOf a) _ _ _ (fun _ => ?_) (fun _ => ?_))

theorem readContainerChild_limits (U : Externals) (a : ActivityObject) (c : Element) :
    limitsOf (Activity.readContainerChild U a c) = limitsOf a := by
  unfold Activity.readContainerChild
  try dsimp only
  repeat' (first | rfl | refine ite_pred (fun z => limitsOf z = limitsOf a) _ _ _ (fun _ => ?_) (fun _ => ?_))

theorem readWindowChild_limits (a : ActivityObject) (c : Element) :
    limitsOf (Activity.readWindowChild a c) = limitsOf a := by
  unfold Activity.readWindowChild
  try dsimp only
  repeat' (first | rfl | refine ite_pred (fun z => limitsOf z = limitsOf a) _ _ _ (fun _ => ?_) (fun _ => ?_))

theorem readSettingsChild_limits (U : Externals) (K : Settings) (a : ActivityObject)
    (c : Element) : limitsOf (Activity.readSettingsChild U K a c) = limitsOf a := by
  unfold Activity.readSettingsChild
  split_ifs
  · rfl
  · rfl
  · rw [foldl_preserves _ limitsOf (readContainerChild_limits U)]; rfl
  · rw [foldl_preserves _ limitsOf readWindowChild_limits]; rfl
  · rfl
  · rfl

theorem readLayoutAttribute_limits (U : Externals) (a : ActivityObject)
    (attr : String × String) : limitsOf (Activity.readLayoutAttribute U a attr) = limitsOf a := by
  unfold Activity.readLayoutAttribute
  try dsimp only
  repeat' (first | rfl | refine ite_pred (fun z => limitsOf z = limitsOf a) _ _ _ (fun _ => ?_) (fun _ => ?_))

theorem readPrevScreenChild_limits (a : ActivityObject) (c : Element) :
    limitsOf (Activity.readPrevScreenChild a c) = limitsOf a := by
  unfold Activity.readPrevScreenChild
  try dsimp only
  repeat' (first | rfl | refine ite_pred (fun z => limitsOf z = limitsOf a) _ _ _ (fun _ => ?_) (fun _ => ?_))

theorem readSettingsAttribute_maxTime (U : Externals) (a : ActivityObject)
    (x : String × String) :
    (Activity.readSettingsAttribute U a x).maxTime
      = if x.1 = "maxTime" then U.Number (some x.2) else a.maxTime := by
  by_cases h : x.1 = "maxTime"
  · rw [if_pos h]
    have e1 : x.1 ≠ "infoUrl" := by rw [h]; decide
    have e2 : x.1 ≠ "infoCmd" := by rw [h]; decide
    have e3 : x.1 ≠ "margin" := by rw [h]; decide
    unfold Activity.readSettingsAttribute
    dsimp only
    rw [if_neg e1, if_neg e2, if_neg e3, if_pos h]
  · rw [if_neg h]
    unfold Activity.readSettingsAttribute
    dsimp only
    repeat' (first
      | rfl
      | exact absurd (by assumption) h
      | refine ite_pred (fun z : ActivityObject => z.maxTime = a.maxTime) _ _ _ (fun _ => ?_) (fun _ => ?_))

theorem readSettingsAttribute_maxActions (U : Externals) (a : ActivityObject)
    (x : String × String) :
    (Activity.readSettingsAttribute U a x).maxActions
      = if x.1 = "maxActions" then U.Number (some x.2) else a.maxActions := by
  by_cases h : x.1 = "maxActions"
  · rw [if_pos h]
    have e1 : x.1 ≠ "infoUrl" := by rw [h]; decide
    have e2 : x.1 ≠ "infoCmd" := by rw [h]; decide
    have e3 : x.1 ≠ "margin" := by rw [h]; decide
    have e4 : x.1 ≠ "maxTime" := by rw [h]; decide
    unfold Activity.readSettingsAttribute
    dsimp only
    rw [if_neg e1, if_neg e2, if_neg e3, if_neg e4, if_pos h]
  · rw [if_neg h]
    unfold Activity.readSettingsAttribute
    dsimp only
    repeat' (first
      | rfl
      | exact absurd (by assumption) h
      | refine ite_pred (fun z : ActivityObject => z.maxActions = a.maxActions) _ _ _ (fun _ => ?_) (fun _ => ?_))

theorem readSettingsAttribute_shuffles (U : Externals) (a : ActivityObject)
    (x : String × String) :
    (Activity.readSettingsAttribute U a x).shuffles = a.shuffles := by
  unfold Activity.readSettingsAttribute
  dsimp only
  repeat' (first
    | rfl
    | refine ite_pred (fun z : ActivityObject => z.shuffles = a.shuffles) _ _ _ (fun _ => ?_) (fun _ => ?_))

/-- What the attributes of a `settings` node do to `maxTime` and `maxActions`: each keeps its
value or takes `Number(val)` for an attribute of that name; `shuffles` keeps its value. -/
theorem settingsAttributes_limits (U : Externals) (l : List (String × String))
    (a : ActivityObject) :
    ((l.foldl (Activity.readSettingsAttribute U) a).maxTime = a.maxTime ∨
      ∃ v, ("maxTime", v) ∈ l ∧
        (l.foldl (Activity.readSettingsAttribute U) a).maxTime = U.Number (some v)) ∧
    ((l.foldl (Activity.readSettingsAttribute U) a).maxActions = a.maxActions ∨
      ∃ v, ("maxActions", v) ∈ l ∧
        (l.foldl (Activity.readSettingsAttribute U) a).maxActions = U.Number (some v)) ∧
    (l.foldl (Activity.readSettingsAttribute U) a).shuffles = a.shuffles := by
  induction l generalizing a with
  | nil => exact ⟨Or.inl rfl, Or.inl rfl, rfl⟩
  | cons x t ih =>
    rw [List.foldl_cons]
    obtain ⟨h1, h2, h3⟩ := ih (Activity.readSettingsAttribute U a x)
    have hx1 := readSettingsAttribute_maxTime U a x
    have hx2 := readSettingsAttribute_maxActions U a x
    have hx3 := readSettingsAttribute_shuffles U a x
    refine ⟨?_, ?_, h3.trans hx3⟩
    · rcases h1 with h1 | ⟨v, hv, h1⟩
      · by_cases hn : x.1 = "maxTime"
        · rw [if_pos hn] at hx1
          refine Or.inr ⟨x.2, ?_, h1.trans hx1⟩
          rw [← hn]
          exact List.mem_cons_self _ _
        · rw [if_neg hn] at hx1
          exact Or.inl (h1.trans hx1)
      · exact Or.inr ⟨v, List.mem_cons_of_mem _ hv, h1⟩
    · rcases h2 with h2 | ⟨v, hv, h2⟩
      · by_cases hn : x.1 = "maxActions"
        · rw [if_pos hn] at hx2
          refine Or.inr ⟨x.2, ?_, h2.trans hx2⟩
          rw [← hn]
          exact List.mem_cons_self _ _
        · rw [if_neg hn] at hx2
          exact Or.inl (h2.trans hx2)
      · exact Or.inr ⟨v, List.mem_cons_of_mem _ hv, h2⟩

/-- A child node other than `settings` and `scramble` changes none of `maxTime`, `maxActions`,
`shuffles`, and leaves the shared `scramble` object as it is. -/
theorem readChild_other (U : Externals) (K : Settings) (st st' : Globals × ActivityObject)
    (c : Element) (h : Activity.readChild U K st c = .ok st')
    (hs : c.nodeName ≠ "settings") (hc : c.nodeName ≠ "scramble") :
    st'.1.scramble = st.1.scramble ∧ limitsOf st'.2 = limitsOf st.2 := by
  revert st' h
  unfold Activity.readChild
  dsimp only
  let P : Except JSError (Globals × ActivityObject) → Prop := fun r =>
    ∀ st', r = .ok st' → st'.1.scramble = st.1.scramble ∧ limitsOf st'.2 = limitsOf st.2
  have ok : ∀ g a, g.scramble = st.1.scramble → limitsOf a = limitsOf st.2 →
      P (.ok (g, a)) := by
    intro g a hg ha st' h
    cases h
    exact ⟨hg, ha⟩
  show P _
  refine ite_pred P _ _ _ (fun h => absurd h hs) (fun _ => ?_)
  refine ite_pred P _ _ _ (fun _ => ?_) (fun _ => ?_)
  · refine ok _ _ rfl ?_
    exact foldl_preserves _ limitsOf (by intro _ _; rfl) _ _
  refine ite_pred P _ _ _ (fun _ => ok _ _ rfl rfl) (fun _ => ?_)
  refine ite_pred P _ _ _ (fun _ => ok _ _ rfl rfl) (fun _ => ?_)
  refine ite_pred P _ _ _ (fun h => absurd h hc) (fun _ => ?_)
  refine ite_pred P _ _ _ (fun _ => ?_) (fun _ => ?_)
  · refine ok _ _ rfl ?_
    exact foldl_preserves _ limitsOf (readLayoutAttribute_limits U) _ _
  refine ite_pred P _ _ _ (fun _ => ?_) (fun _ => ?_)
  · intro st' h
    split at h
    · cases h
    · cases h
      exact ⟨rfl, rfl⟩
  refine ite_pred P _ _ _ (fun _ => ok _ _ rfl rfl) (fun _ => ?_)
  refine ite_pred P _ _ _ (fun _ => ok _ _ rfl rfl) (fun _ => ?_)
  refine ite_pred P _ _ _ (fun _ => ok _ _ rfl rfl) (fun _ => ?_)
  refine ite_pred P _ _ _ (fun _ => ?_) (fun _ => ?_)
  · refine ok _ _ rfl ?_
    exact (foldl_preserves _ limitsOf readPrevScreenChild_limits _ _).trans rfl
  refine ite_pred P _ _ _ (fun _ => ok _ _ rfl rfl) (fun _ => ?_)
  refine ite_pred P _ _ _ (fun _ => ok _ _ rfl rfl) (fun _ => ?_)
  intro st' h
  cases h
  exact ⟨rfl, rfl⟩

theorem readSettings_limits (U : Externals) (K : Settings) (a : ActivityObject) (c : Element) :
    ((Activity.readSettings U K a c).maxTime = a.maxTime ∨
      ∃ v, ("maxTime", v) ∈ c.attributes ∧
        (Activity.readSettings U K a c).maxTime = U.Number (some v)) ∧
    ((Activity.readSettings U K a c).maxActions = a.maxActions ∨
      ∃ v, ("maxActions", v) ∈ c.attributes ∧
        (Activity.readSettings U K a c).maxActions = U.Number (some v)) ∧
    (Activity.readSettings U K a c).shuffles = a.shuffles := by
  have hc := foldl_preserves _ limitsOf (readSettingsChild_limits U K) c.childNodes
    (c.attributes.foldl (Activity.readSettingsAttribute U) a)
  have e1 : (Activity.readSettings U K a c).maxTime
      = (c.attributes.foldl (Activity.readSettingsAttribute U) a).maxTime :=
    congrArg (fun t => t.1) hc
  have e2 : (Activity.readSettings U K a c).maxActions
      = (c.attributes.foldl (Activity.readSettingsAttribute U) a).maxActions :=
    congrArg (fun t => t.2.1) hc
  have e3 : (Activity.readSettings U K a c).shuffles
      = (c.attributes.foldl (Activity.readSettingsAttribute U) a).shuffles :=
    congrArg (fun t => t.2.2) hc
  rw [e1, e2, e3]
  exact settingsAttributes_limits U c.attributes a

theorem readChild_settings (U : Externals) (K : Settings) (st : Globals × ActivityObject)
    (c : Element) (h : c.nodeName = "settings") :
    Activity.readChild U K st c = .ok (st.1, Activity.readSettings U K st.2 c) := by
  unfold Activity.readChild
  dsimp only
  rw [if_pos h]

theorem readChild_scramble (U : Externals) (K : Settings) (st : Globals × ActivityObject)
    (c : Element) (h : c.nodeName = "scramble") :
    ∃ g1 a1, Activity.readChild U K st c = .ok (g1, a1) ∧
      a1.maxTime = st.2.maxTime ∧ a1.maxActions = st.2.maxActions := by
  have e1 : c.nodeName ≠ "settings" := by rw [h]; decide
  have e2 : c.nodeName ≠ "messages" := by rw [h]; decide
  have e3 : c.nodeName ≠ "automation" := by rw [h]; decide
  have e4 : c.nodeName ≠ "cells" := by rw [h]; decide
  unfold Activity.readChild
  dsimp only
  rw [if_neg e1, if_neg e2, if_neg e3, if_neg e4, if_pos h]
  exact ⟨_, _, rfl, rfl, rfl⟩

/-- A document without `scramble` child node leaves the shared `scramble` object and the
`shuffles` of the activity as they were before `setProperties`. -/
theorem setProperties_without_scramble (U : Externals) (K : Settings) (g g' : Globals)
    (a a' : ActivityObject) (xml : Element)
    (h : Activity.setProperties U K g a xml = .ok (g', a'))
    (hno : ∀ c ∈ xml.childNodes, c.nodeName ≠ "scramble") :
    g'.scramble = g.scramble ∧ a'.shuffles = a.shuffles := by
  unfold Activity.setProperties at h
  have h0 : limitsOf (xml.attributes.foldl (Activity.readAttribute U) a) = limitsOf a :=
    foldl_preserves _ limitsOf (readAttribute_limits U) _ _
  have hI := foldlM_invariant (Activity.readChild U K)
    (fun st => st.1.scramble = g.scramble ∧ st.2.shuffles = a.shuffles) xml.childNodes
    (by
      intro s x s' hx hI hstep
      by_cases hs : x.nodeName = "settings"
      · rw [readChild_settings U K s x hs] at hstep
        cases hstep
        exact ⟨hI.1, (readSettings_limits U K s.2 x).2.2.trans hI.2⟩
      · obtain ⟨k1, k2⟩ := readChild_other U K s s' x hstep hs (hno x hx)
        exact ⟨k1.trans hI.1, (congrArg (fun t => t.2.2) k2).trans hI.2⟩)
    _ _ ⟨rfl, congrArg (fun t => t.2.2) h0⟩ h
  exact hI

/-! ## C13 -/

/-- C13, as stated, fails: after `setProperties` on a document whose `settings` node has
`maxTime="-5"` and `maxActions="abc"`, `maxTime` is `-5`, which is negative, and `maxActions`
is `NaN`. -/
theorem setProperties_limits_counterexample :
    ((Activity.setProperties sampleExternals sampleSettings Globals.initial
        (Activity.construct sampleSettings sampleProject) badLimitsDocument).toOption.map
      fun r => (r.2.maxTime, r.2.maxActions, r.2.maxTime.isNonNegative,
        r.2.maxActions.isNonNegative))
      = some (JSNumber.finite (-5), JSNumber.nan, false, false) := by
  decide

/-- C13, amended: after `setProperties` returns, `maxTime` is the value it had before (0 for a
new activity) or `Number(val)` for the value `val` of a `maxTime` attribute of a `settings`
child node, and `maxActions` likewise: the value is not validated, so a non-numeric value gives
`NaN` and a negative value a negative field. -/
theorem setProperties_limits (U : Externals) (K : Settings) (g g' : Globals)
    (a a' : ActivityObject) (xml : Element)
    (h : Activity.setProperties U K g a xml = .ok (g', a')) :
    (a'.maxTime = a.maxTime ∨
      ∃ c ∈ xml.childNodes, c.nodeName = "settings" ∧
        ∃ v, ("maxTime", v) ∈ c.attributes ∧ a'.maxTime = U.Number (some v)) ∧
    (a'.maxActions = a.maxActions ∨
      ∃ c ∈ xml.childNodes, c.nodeName = "settings" ∧
        ∃ v, ("maxActions", v) ∈ c.attributes ∧ a'.maxActions = U.Number (some v)) := by
  unfold Activity.setProperties at h
  have h0 : limitsOf (xml.attributes.foldl (Activity.readAttribute U) a) = limitsOf a :=
    foldl_preserves _ limitsOf (readAttribute_limits U) _ _
  have hI := foldlM_invariant (Activity.readChild U K)
    (fun st =>
      (st.2.maxTime = a.maxTime ∨
        ∃ c ∈ xml.childNodes, c.nodeName = "settings" ∧
          ∃ v, ("maxTime", v) ∈ c.attributes ∧ st.2.maxTime = U.Number (some v)) ∧
      (st.2.maxActions = a.maxActions ∨
        ∃ c ∈ xml.childNodes, c.nodeName = "settings" ∧
          ∃ v, ("maxActions", v) ∈ c.attributes ∧ st.2.maxActions = U.Number (some v)))
    xml.childNodes
    (by
      intro s x s' hx hI hstep
      have keep : s'.2.maxTime = s.2.maxTime → s'.2.maxActions = s.2.maxActions →
          (s'.2.maxTime = a.maxTime ∨
            ∃ c ∈ xml.childNodes, c.nodeName = "settings" ∧
              ∃ v, ("maxTime", v) ∈ c.attributes ∧ s'.2.maxTime = U.Number (some v)) ∧
          (s'.2.maxActions = a.maxActions ∨
            ∃ c ∈ xml.childNodes, c.nodeName = "settings" ∧
              ∃ v, ("maxActions", v) ∈ c.attributes ∧
                s'.2.maxActions = U.Number (some v)) := by
        intro k1 k2
        rw [k1, k2]
        exact hI
      by_cases hs : x.nodeName = "settings"
      · rw [readChild_settings U K s x hs] at hstep
        cases hstep
        obtain ⟨r1, r2, _⟩ := readSettings_limits U K s.2 x
        constructor
        · rcases r1 with r1 | ⟨v, hv, r1⟩
          · rw [r1]; exact hI.1
          · exact Or.inr ⟨x, hx, hs, v, hv, r1⟩
        · rcases r2 with r2 | ⟨v, hv, r2⟩
          · rw [r2]; exact hI.2
          · exact Or.inr ⟨x, hx, hs, v, hv, r2⟩
      · by_cases hc : x.nodeName = "scramble"
        · obtain ⟨g1, a1, e, k1, k2⟩ := readChild_scramble U K s x hc
          rw [e] at hstep
          cases hstep
          exact keep k1 k2
        · obtain ⟨_, k⟩ := readChild_other U K s s' x hstep hs hc
          exact keep (congrArg (fun t => t.1) k) (congrArg (fun t => t.2.1) k))
    _ _ ⟨Or.inl (congrArg (fun t => t.1) h0), Or.inl (congrArg (fun t => t.2.1) h0)⟩ h
  exact hI

/-- Witness of `setProperties_limits`: the document with `maxTime="-5"` and
`maxActions="abc"` is read without error. -/
theorem setProperties_limits_witness :
    ∃ g' a',
      Activity.setProperties sampleExternals sampleSettings Globals.initial
        (Activity.construct sampleSettings sampleProject) badLimitsDocument = .ok (g', a') ∧
      (a'.maxTime = (Activity.construct sampleSettings sampleProject).maxTime ∨
        ∃ c ∈ badLimitsDocument.childNodes, c.nodeName = "settings" ∧
          ∃ v, ("maxTime", v) ∈ c.attributes ∧
            a'.maxTime = sampleExternals.Number (some v)) :=
  ⟨_, _, rfl,
    (setProperties_limits sampleExternals sampleSettings Globals.initial _
      (Activity.construct sampleSettings sampleProject) _ badLimitsDocument rfl).1⟩

/-! ## C14 -/

/-- C14, the code at a failing input: after `setProperties` has read a document with
`<scramble times="5" primary="false" secondary="false"/>` into one activity, a new activity that
reads a document without `scramble` node has the default `shuffles`, but the `scramble` object it
sees (the one shared through `Activity.prototype`) has `primary` and `secondary` false. -/
theorem scramble_flags_after_other_descriptor :
    (do
      let r1 ← Activity.setProperties sampleExternals sampleSettings Globals.initial
        (Activity.construct sampleSettings sampleProject) scrambledDocument
      let r2 ← Activity.setProperties sampleExternals sampleSettings r1.1
        (Activity.construct sampleSettings sampleProject) plainDocument
      pure (r2.2.shuffles, r2.1.scramble))
      = Except.ok (sampleSettings.DEFAULT_SHUFFLES, (⟨false, false⟩ : ScrambleType)) := by
  rfl

/-! ## C19 -/

/-- C19, the code at a failing input: `Activity.getActivity` on a document of class
`@panels.Menu` (registered to the base class `Activity`) with one `menuElement` child throws a
`TypeError`, because `menuElements` of a freshly constructed `Activity` is `null`; and reading a
document without `menuElement` child leaves `menuElements` `null`, not an empty list. -/
theorem menuElements_not_initialised :
    Activity.getActivity sampleExternals sampleSettings Activity.CLASSES Globals.initial
        (some menuDocument) (some sampleProject)
      = .error (JSError.typeError "Cannot read properties of null (reading 'push')") ∧
    (Activity.construct sampleSettings sampleProject).menuElements = none ∧
    ((Activity.setProperties sampleExternals sampleSettings Globals.initial
        (Activity.construct sampleSettings sampleProject) plainDocument).toOption.map
      fun r => r.2.menuElements) = some none := by
  refine ⟨rfl, rfl, by decide⟩

/-! ## C20: unknown names -/

theorem foldl_insert_id {α β : Type} (f : α → β → α) (x : β) (hx : ∀ a, f a x = a)
    (l1 l2 : List β) (a : α) : (l1 ++ x :: l2).foldl f a = (l1 ++ l2).foldl f a := by
  rw [List.foldl_append, List.foldl_cons, hx, List.foldl_append]

theorem foldlM_insert_ok {σ β ε : Type} (f : σ → β → Except ε σ) (x : β)
    (hx : ∀ s, f s x = .ok s) (l1 l2 : List β) (s : σ) :
    (l1 ++ x :: l2).foldlM f s = (l1 ++ l2).foldlM f s := by
  rw [List.foldlM_append, List.foldlM_append]
  congr 1
  funext s1
  rw [List.foldlM_cons, hx]
  rfl

theorem foldlM_replace {σ β ε : Type} (f : σ → β → Except ε σ) (x y : β)
    (hxy : ∀ s, f s x = f s y) (l1 l2 : List β) (s : σ) :
    (l1 ++ x :: l2).foldlM f s = (l1 ++ y :: l2).foldlM f s := by
  rw [List.foldlM_append, List.foldlM_append]
  congr 1
  funext s1
  rw [List.foldlM_cons, List.foldlM_cons, hxy]

theorem readAttribute_unknown (U : Externals) (a : ActivityObject) (name val : String)
    (h : name ∉ activityAttributeNames) : Activity.readAttribute U a (name, val) = a := by
  simp only [activityAttributeNames, List.mem_cons, List.mem_singleton, List.not_mem_nil,
    or_false, not_or] at h
  obtain ⟨h1, h2, h3, h4, h5, h6, h7, h8, h9⟩ := h
  unfold Activity.readAttribute
  dsimp only
  rw [if_neg h1, if_neg h2, if_neg h3, if_neg h4, if_neg h5, if_neg h6, if_neg h7, if_neg h8,
    if_neg h9]

theorem readSettingsAttribute_unknown (U : Externals) (a : ActivityObject) (name val : String)
    (h : name ∉ settingsAttributeNames) :
    Activity.readSettingsAttribute U a (name, val) = a := by
  simp only [settingsAttributeNames, List.mem_cons, List.mem_singleton, List.not_mem_nil,
    or_false, not_or] at h
  obtain ⟨h1, h2, h3, h4, h5, h6, h7, h8, h9, h10, h11⟩ := h
  unfold Activity.readSettingsAttribute
  dsimp only
  rw [if_neg h1, if_neg h2, if_neg h3, if_neg h4, if_neg h5, if_neg h6, if_neg h7, if_neg h8,
    if_neg h9, if_neg h10, if_neg h11]

theorem readSettingsChild_unknown (U : Externals) (K : Settings) (a : ActivityObject)
    (c : Element) (h : c.nodeName ∉ settingsChildNames) :
    Activity.readSettingsChild U K a c = a := by
  simp only [settingsChildNames, List.mem_cons, List.mem_singleton, List.not_mem_nil,
    or_false, not_or] at h
  obtain ⟨h1, h2, h3, h4, h5⟩ := h
  unfold Activity.readSettingsChild
  rw [if_neg h1, if_neg h2, if_neg h3, if_neg h4, if_neg h5]

theorem readChild_unknown (U : Externals) (K : Settings) (st : Globals × ActivityObject)
    (c : Element) (h : c.nodeName ∉ activityChildNames) :
    Activity.readChild U K st c = .ok st := by
  simp only [activityChildNames, List.mem_cons, List.mem_singleton, List.not_mem_nil,
    or_false, not_or] at h
  obtain ⟨h1, h2, h3, h4, h5, h6, h7, h8, h9, h10, h11, h12, h13⟩ := h
  unfold Activity.readChild
  dsimp only
  rw [if_neg h1, if_neg h2, if_neg h3, if_neg h4, if_neg h5, if_neg h6, if_neg h7, if_neg h8,
    if_neg h9, if_neg h10, if_neg h11, if_neg h12, if_neg h13]

/-- C20: unknown names are ignored by `Activity.setProperties`. For every document, state and
activity, the result of `setProperties` (the descriptor with all its fields and the shared
state, or the error thrown) is the same with and without (1) an attribute of the activity node
whose name is not recognised, (2) a child node of the activity node whose name is not
recognised, (3) an attribute of a `settings` child node whose name is not recognised there, and
(4) a child node of a `settings` child node whose name is not recognised there. In particular
the addition raises no error and changes no field. -/
theorem setProperties_ignores_unknown (U : Externals) (K : Settings) (g : Globals)
    (a : ActivityObject) :
    (∀ (n : String) (attrs1 attrs2 : List (String × String)) (children : List Element)
        (d name val : String), name ∉ activityAttributeNames →
      Activity.setProperties U K g a (.mk n (attrs1 ++ (name, val) :: attrs2) children d)
        = Activity.setProperties U K g a (.mk n (attrs1 ++ attrs2) children d)) ∧
    (∀ (n : String) (attrs : List (String × String)) (c1 c2 : List Element) (d : String)
        (child : Element), child.nodeName ∉ activityChildNames →
      Activity.setProperties U K g a (.mk n attrs (c1 ++ child :: c2) d)
        = Activity.setProperties U K g a (.mk n attrs (c1 ++ c2) d)) ∧
    (∀ (n : String) (attrs : List (String × String)) (c1 c2 : List Element) (d : String)
        (sa1 sa2 : List (String × String)) (sc : List Element) (sd name val : String),
        name ∉ settingsAttributeNames →
      Activity.setProperties U K g a
          (.mk n attrs (c1 ++ .mk "settings" (sa1 ++ (name, val) :: sa2) sc sd :: c2) d)
        = Activity.setProperties U K g a
          (.mk n attrs (c1 ++ .mk "settings" (sa1 ++ sa2) sc sd :: c2) d)) ∧
    (∀ (n : String) (attrs : List (String × String)) (c1 c2 : List Element) (d : String)
        (sa : List (String × String)) (sc1 sc2 : List Element) (sd : String) (child : Element),
        child.nodeName ∉ settingsChildNames →
      Activity.setProperties U K g a
          (.mk n attrs (c1 ++ .mk "settings" sa (sc1 ++ child :: sc2) sd :: c2) d)
        = Activity.setProperties U K g a
          (.mk n attrs (c1 ++ .mk "settings" sa (sc1 ++ sc2) sd :: c2) d)) := by
  refine ⟨?_, ?_, ?_, ?_⟩
  · intro n attrs1 attrs2 children d name val h
    unfold Activity.setProperties
    simp only [Element.attributes, Element.childNodes]
    rw [foldl_insert_id _ _ (fun a => readAttribute_unknown U a name val h)]
  · intro n attrs c1 c2 d child h
    unfold Activity.setProperties
    simp only [Element.attributes, Element.childNodes]
    rw [foldlM_insert_ok _ _ (fun s => readChild_unknown U K s child h)]
  · intro n attrs c1 c2 d sa1 sa2 sc sd name val h
    unfold Activity.setProperties
    simp only [Element.attributes, Element.childNodes]
    apply foldlM_replace
    intro s
    rw [readChild_settings U K s (.mk "settings" (sa1 ++ (name, val) :: sa2) sc sd) rfl,
      readChild_settings U K s (.mk "settings" (sa1 ++ sa2) sc sd) rfl]
    unfold Activity.readSettings
    simp only [Element.attributes, Element.childNodes]
    rw [foldl_insert_id _ _ (fun a => readSettingsAttribute_unknown U a name val h)]
  · intro n attrs c1 c2 d sa sc1 sc2 sd child h
    unfold Activity.setProperties
    simp only [Element.attributes, Element.childNodes]
    apply foldlM_replace
    intro s
    rw [readChild_settings U K s (.mk "settings" sa (sc1 ++ child :: sc2) sd) rfl,
      readChild_settings U K s (.mk "settings" sa (sc1 ++ sc2) sd) rfl]
    unfold Activity.readSettings
    simp only [Element.attributes, Element.childNodes]
    rw [foldl_insert_id _ _ (fun a => readSettingsChild_unknown U K a child h)]

/-- Witness of `setProperties_ignores_unknown`: the attribute `future="1"` and the child node
`<extension/>`, on the activity node and on its `settings` node. -/
theorem setProperties_ignores_unknown_witness :
    Activity.setProperties sampleExternals sampleSettings Globals.initial
        (Activity.construct sampleSettings sampleProject)
        (.mk "activity" ([("name", "b")] ++ ("future", "1") :: [])
          [.mk "settings" [("margin", "4")] [] ""] "")
      = Activity.setProperties sampleExternals sampleSettings Globals.initial
        (Activity.construct sampleSettings sampleProject)
        (.mk "activity" ([("name", "b")] ++ [])
          [.mk "settings" [("margin", "4")] [] ""] "") ∧
    Activity.setProperties sampleExternals sampleSettings Globals.initial
        (Activity.construct sampleSettings sampleProject)
        (.mk "activity" [("name", "b")]
          ([] ++ .mk "extension" [] [] "" :: [.mk "settings" [("margin", "4")] [] ""]) "")
      = Activity.setProperties sampleExternals sampleSettings Globals.initial
        (Activity.construct sampleSettings sampleProject)
        (.mk "activity" [("name", "b")] ([] ++ [.mk "settings" [("margin", "4")] [] ""]) "") ∧
    Activity.setProperties sampleExternals sampleSettings Globals.initial
        (Activity.construct sampleSettings sampleProject)
        (.mk "activity" [("name", "b")]
          ([] ++ .mk "settings" ([("margin", "4")] ++ ("future", "1") :: []) [] "" :: []) "")
      = Activity.setProperties sampleExternals sampleSettings Globals.initial
        (Activity.construct sampleSettings sampleProject)
        (.mk "activity" [("name", "b")]
          ([] ++ .mk "settings" ([("margin", "4")] ++ []) [] "" :: []) "") ∧
    Activity.setProperties sampleExternals sampleSettings Globals.initial
        (Activity.construct sampleSettings sampleProject)
        (.mk "activity" [("name", "b")]
          ([] ++ .mk "settings" [("margin", "4")]
            ([] ++ .mk "extension" [] [] "" :: []) "" :: []) "")
      = Activity.setProperties sampleExternals sampleSettings Globals.initial
        (Activity.construct sampleSettings sampleProject)
        (.mk "activity" [("name", "b")]
          ([] ++ .mk "settings" [("margin", "4")] ([] ++ []) "" :: []) "") :=
  have h := setProperties_ignores_unknown sampleExternals sampleSettings Globals.initial
    (Activity.construct sampleSettings sampleProject)
  ⟨h.1 "activity" [("name", "b")] [] [.mk "settings" [("margin", "4")] [] ""] "" "future" "1"
      (by decide),
    h.2.1 "activity" [("name", "b")] [] [.mk "settings" [("margin", "4")] [] ""] ""
      (.mk "extension" [] [] "") (by decide),
    h.2.2.1 "activity" [("name", "b")] [] [] "" [("margin", "4")] [] [] "" "future" "1"
      (by decide),
    h.2.2.2 "activity" [("name", "b")] [] [] "" [("margin", "4")] [] [] ""
      (.mk "extension" [] [] "") (by decide)⟩

/-! ## C21: `MediaBag.getElementByFileName` -/

theorem setProperty_of_new {α : Type} (obj : List (String × α)) (k : String) (v : α)
    (h : ∀ kv ∈ obj, kv.1 ≠ k) : setProperty obj k v = obj ++ [(k, v)] := by
  unfold setProperty
  rw [if_neg]
  simp only [List.any_eq_true, decide_eq_true_eq, not_exists, not_and]
  exact fun kv hkv => h kv hkv

theorem lookup_setProperty {α : Type} (obj : List (String × α)) (k : String) (v : α) :
    (setProperty obj k v).lookup k = some v := by
  unfold setProperty
  split
  · rename_i h
    induction obj with
    | nil => simp at h
    | cons x t ih =>
      obtain ⟨x1, x2⟩ := x
      rw [List.map_cons]
      by_cases hx : x1 = k
      · have hg : (if (x1, x2).1 = k then (k, v) else (x1, x2)) = (k, v) := if_pos hx
        rw [hg]
        simp [List.lookup]
      · have hg : (if (x1, x2).1 = k then (k, v) else (x1, x2)) = (x1, x2) := if_neg hx
        have ht : (t.any fun kv => decide (kv.1 = k)) = true := by
          simpa [List.any_cons, hx] using h
        have hk : (k == x1) = false := by
          simpa using fun e => hx e.symm
        rw [hg]
        simp only [List.lookup, hk]
        exact ih ht
  · rename_i h
    induction obj with
    | nil => simp [List.lookup]
    | cons x t ih =>
      obtain ⟨x1, x2⟩ := x
      have hx : ¬ x1 = k := by
        intro e
        exact h (by simp [List.any_cons, e])
      have ht : ¬ (t.any fun kv => decide (kv.1 = k)) = true := by
        intro e
        exact h (by simp [List.any_cons, e])
      have hk : (k == x1) = false := by
        simpa using fun e => hx e.symm
      simp only [List.cons_append, List.lookup, hk]
      exact ih ht

theorem find_setProperty {α : Type} (P : α → Bool) (obj : List (String × α)) (k : String)
    (v : α) (hv : P v = true) (h : ∀ kv ∈ obj, P kv.2 = false) :
    (setProperty obj k v).find? (fun kv => P kv.2) = some (k, v) := by
  unfold setProperty
  split
  · rename_i hany
    induction obj with
    | nil => simp at hany
    | cons x t ih =>
      by_cases hx : x.1 = k
      · simp [List.map_cons, hx, List.find?, hv]
      · have ht : (t.any fun kv => decide (kv.1 = k)) = true := by
          simpa [List.any_cons, hx] using hany
        have hPx : P x.2 = false := h x (List.mem_cons_self _ _)
        simp only [List.map_cons, if_neg hx, List.find?, hPx]
        exact ih (fun kv hkv => h kv (List.mem_cons_of_mem _ hkv)) ht
  · induction obj with
    | nil => simp [List.find?, hv]
    | cons x t ih =>
      have hPx : P x.2 = false := h x (List.mem_cons_self _ _)
      simp only [List.cons_append, List.find?, hPx]
      rename_i hany
      exact ih (fun kv hkv => h kv (List.mem_cons_of_mem _ hkv))
        (fun e => hany (by simp only [List.any_cons, e, Bool.or_true]))

/-- C21, as stated, fails: the bag has one element, named `a`, with file `x.png`, and none whose
file name is `a`. `getElementByFileName('a', true)` stores the new element under the key `a`,
which is taken: the bag still has one element and the element with file `x.png` is lost, so the
call has not added exactly one element. -/
theorem getElementByFileName_counterexample :
    (∀ kv ∈ collisionBag.elements, kv.2.fileName ≠ "a") ∧
    (MediaBag.getElementByFileName id sampleFileType collisionBag (some "a") true).1.elements.length
      = collisionBag.elements.length ∧
    ((MediaBag.getElementByFileName id sampleFileType collisionBag (some "a") true).1.elements.find?
      fun kv => kv.2.fileName = "x.png") = none := by
  decide

/-- C21, amended: for every bag and every non-empty file name `f`:
`getElementByFileName(f, false)` returns the first element whose `fileName` is `f`, or `null`,
and leaves the bag unchanged. On a bag with no such element, `getElementByFileName(f, true)`
stores a new element with `name = fileName = f` under the key `f` and returns it: the bag gains
exactly this element when no element is named `f` (otherwise the new element replaces the element
named `f`); a later `getElement(f)` or `getElementByFileName(f, true)` returns the same element
and leaves the bag as it is. For an empty or `null` file name the result is `null` and the bag is
unchanged, also when `create` is true. -/
theorem getElementByFileName_spec (toLowerCase : String → String)
    (getFileType : String → String) (bag : MediaBag) (f : String) (hf : f ≠ "") :
    MediaBag.getElementByFileName toLowerCase getFileType bag (some f) false
      = (bag, (bag.elements.find? fun kv => kv.2.fileName = f).map fun kv => kv.2) ∧
    ((∀ kv ∈ bag.elements, kv.2.fileName ≠ f) →
      ∃ e : MediaBagElement, e.name = f ∧ e.fileName = f ∧
        MediaBag.getElementByFileName toLowerCase getFileType bag (some f) true
          = ({ bag with elements := setProperty bag.elements f e }, some e) ∧
        ((∀ kv ∈ bag.elements, kv.1 ≠ f) →
          setProperty bag.elements f e = bag.elements ++ [(f, e)]) ∧
        MediaBag.getElement toLowerCase getFileType
            { bag with elements := setProperty bag.elements f e } (some f) false
          = ({ bag with elements := setProperty bag.elements f e }, some e) ∧
        MediaBag.getElementByFileName toLowerCase getFileType
            { bag with elements := setProperty bag.elements f e } (some f) true
          = ({ bag with elements := setProperty bag.elements f e }, some e)) ∧
    (∀ create, MediaBag.getElementByFileName toLowerCase getFileType bag none create
        = (bag, none) ∧
      MediaBag.getElementByFileName toLowerCase getFileType bag (some "") create
        = (bag, none)) := by
  refine ⟨?_, ?_, ?_⟩
  · unfold MediaBag.getElementByFileName
    simp only [if_neg hf]
    cases bag.elements.find? fun kv => kv.2.fileName = f <;> simp
  · intro hnone
    have hfind : (bag.elements.find? fun kv => decide (kv.2.fileName = f)) = none := by
      rw [List.find?_eq_none]
      intro kv hkv
      simpa using hnone kv hkv
    refine ⟨MediaBagElement.mk f f (fileExtension toLowerCase f)
      (getFileType (fileExtension toLowerCase f)), rfl, rfl, ?_, ?_, ?_, ?_⟩
    · unfold MediaBag.getElementByFileName
      simp only [if_neg hf, hfind, if_true]
    · intro hkey
      exact setProperty_of_new _ _ _ hkey
    · unfold MediaBag.getElement
      simp only [propertyKey, Option.getD_some, lookup_setProperty]
    · unfold MediaBag.getElementByFileName
      simp only [if_neg hf]
      rw [find_setProperty (fun e : MediaBagElement => decide (e.fileName = f)) _ _ _
        (by simp) (fun kv hkv => by simpa using hnone kv hkv)]
  · intro create
    exact ⟨rfl, rfl⟩

/-- Witness of `getElementByFileName_spec`: the file `b.png` asked of the bag whose only element
is named `a`. -/
theorem getElementByFileName_spec_witness :
    ("b.png" : String) ≠ "" ∧ (∀ kv ∈ collisionBag.elements, kv.2.fileName ≠ "b.png") ∧
    ∃ e : MediaBagElement, e.name = "b.png" ∧ e.fileName = "b.png" ∧
      MediaBag.getElementByFileName id sampleFileType collisionBag (some "b.png") true
        = ({ collisionBag with elements := setProperty collisionBag.elements "b.png" e },
            some e) :=
  have h := (getElementByFileName_spec id sampleFileType collisionBag "b.png" (by decide)).2.1
    (by decide)
  ⟨by decide, by decide, h.choose, h.choose_spec.1, h.choose_spec.2.1, h.choose_spec.2.2.1⟩

/-! ## C22: `MediaBag.buildAll` -/

/-- C22, the code at a failing input: on a bag with a font named `arial` and an image named
`font`, `buildAll('font')` builds the image named `font` and not the font, because the test
compares `element.name` with `type`; `buildAll(null)` builds both elements. -/
theorem buildAll_compares_name :
    (fontBag.elements.filter fun kv => kv.2.type = "font").map (fun kv => kv.2.name)
      = ["arial"] ∧
    (MediaBag.buildAll fontBag (some "font")).built = ["font"] ∧
    (MediaBag.buildAll fontBag none).built = ["arial", "font"] := by
  decide


/-! ## C23: `Skin.getSkin` -/

/-- The search loop of `getSkin` never runs its body: whatever the stack, the condition
`i < Skin.skinStack` is false at `i = 0`. -/
theorem searchLoop_never_runs (stack : List Skin) (skinName : String) (ps : Nat) (fuel : Nat)
    (sk : Option Skin) :
    Skin.searchLoop stack skinName ps (fuel + 1) 0 sk = some (SkinSearch.finished sk) := by
  cases stack with
  | nil => simp [Skin.searchLoop, skinStackAsNumber, indexLess]
  | cons s t => simp [Skin.searchLoop, skinStackAsNumber, indexLess]

/-- C23, the code at a failing input: `Skin.skinStack` holds one realized skin, with name `empty`
and PlayStation 7, and the class `empty` is registered. `getSkin('empty', ps)` with that
PlayStation does not return the skin of the stack (object 0): it builds a new skin (object 1)
and pushes it, so the stack has two skins afterwards. -/
theorem getSkin_ignores_stack :
    (oneSkinGlobals.skinStack.find? fun sk => sk.name = "empty" ∧ sk.ps = some 7).map
        (fun sk => sk.oid) = some 0 ∧
    ((Skin.getSkin 1 oneSkinGlobals (some "empty") (some 7)).map fun r =>
      r.toOption.map fun x => (x.1.skinStack.length, x.2.map fun sk => sk.oid))
      = some (some (2, some 1)) := by
  decide

/-! ## C29: `Skin.setWaitCursor` -/

theorem setWaitCursor_count (sk : Skin) (status : Option Bool) :
    (sk.setWaitCursor status).waitCursorCount =
      match status with
      | none => sk.waitCursorCount
      | some true => sk.waitCursorCount + 1
      | some false => max 0 (sk.waitCursorCount - 1) := by
  unfold Skin.setWaitCursor
  rcases status with _ | _ | _ <;> cases h : sk.waitPanelDisplay <;> simp only [h] <;>
    first
      | rfl
      | (split_ifs with hc
         · exact (max_eq_left (by omega)).symm
         · exact (max_eq_right (by omega)).symm)

/-- C29: `waitCursorCount` is never negative. `setWaitCursor(true)` adds 1, `setWaitCursor(false)`
subtracts 1 but not below 0, and `setWaitCursor()` leaves the counter unchanged; so, starting
from 0, the counter is `≥ 0` after every sequence of such calls. -/
theorem waitCursorCount_nonneg :
    (∀ sk : Skin, (sk.setWaitCursor (some true)).waitCursorCount = sk.waitCursorCount + 1) ∧
    (∀ sk : Skin,
      (sk.setWaitCursor (some false)).waitCursorCount = max 0 (sk.waitCursorCount - 1)) ∧
    (∀ sk : Skin, (sk.setWaitCursor none).waitCursorCount = sk.waitCursorCount) ∧
    (∀ (calls : List (Option Bool)) (sk : Skin), sk.waitCursorCount = 0 →
      0 ≤ (calls.foldl Skin.setWaitCursor sk).waitCursorCount) := by
  refine ⟨fun sk => setWaitCursor_count sk (some true),
    fun sk => setWaitCursor_count sk (some false), fun sk => setWaitCursor_count sk none, ?_⟩
  have key : ∀ (calls : List (Option Bool)) (sk : Skin), 0 ≤ sk.waitCursorCount →
      0 ≤ (calls.foldl Skin.setWaitCursor sk).waitCursorCount := by
    intro calls
    induction calls with
    | nil => intro sk h; exact h
    | cons c t ih =>
      intro sk h
      rw [List.foldl_cons]
      apply ih
      rw [setWaitCursor_count]
      rcases c with _ | _ | _
      · exact h
      · exact le_max_left _ _
      · show 0 ≤ sk.waitCursorCount + 1
        omega
  intro calls sk h
  exact key calls sk (by omega)

/-- Witness of `waitCursorCount_nonneg`: a new skin after `true`, `false`, `false`, no
argument, `true`. -/
theorem waitCursorCount_nonneg_witness :
    freshSkin.waitCursorCount = 0 ∧
    0 ≤ ([some true, some false, some false, none, some true].foldl Skin.setWaitCursor
      freshSkin).waitCursorCount :=
  ⟨rfl, waitCursorCount_nonneg.2.2.2 [some true, some false, some false, none, some true]
    freshSkin rfl⟩


/-! ## C24: `TextTarget.getAnswers` -/

/-- C24, the code at a failing input: `getAnswers` reads the property `answers`, while the
answers are kept in `answer`. For every text, the target built from it has `answer = [text]` and
`getAnswers()` gives the empty string; after `setProperties` has read `<answer>dog</answer>` into
the target built from `cat`, `answer` is `['cat', 'dog']` and `getAnswers()` is still empty. -/
theorem getAnswers_reads_answers :
    (∀ text : String, (TextTarget.construct text).answer = some [text] ∧
      (TextTarget.construct text).getAnswers = "") ∧
    ((TextTarget.setProperties sampleTextExternals (TextTarget.construct "cat")
        answerDocument).toOption.map fun t => (t.answer, t.getAnswers))
      = some (some ["cat", "dog"], "") := by
  refine ⟨fun text => ⟨rfl, rfl⟩, by decide⟩

/-! ## C25: `MediaContent.getDescription` and `isEquivalent` -/

theorem strictEq_eq (a b : JSNumber) (h : a.strictEq b = true) : a = b := by
  unfold JSNumber.strictEq at h
  simp only [Bool.and_eq_true, decide_eq_true_eq] at h
  exact h.2

/-- C25, as stated, fails in both directions. Two audios that differ in `recBuffer` only have
the same description and are not equivalent; two audios whose file names differ in case only
(`BELL.mp3`, `bell.mp3`) are equivalent and have different descriptions. -/
theorem getDescription_counterexample :
    MediaContent.getDescription sampleNumberText (bellAudio "bell.mp3" 0)
      = MediaContent.getDescription sampleNumberText (bellAudio "bell.mp3" 1) ∧
    (MediaContent.isEquivalent sampleLowerCase (bellAudio "bell.mp3" 0)
      (bellAudio "bell.mp3" 1)).toOption = some false ∧
    (MediaContent.isEquivalent sampleLowerCase (bellAudio "BELL.mp3" 0)
      (bellAudio "bell.mp3" 0)).toOption = some true ∧
    MediaContent.getDescription sampleNumberText (bellAudio "BELL.mp3" 0)
      ≠ MediaContent.getDescription sampleNumberText (bellAudio "bell.mp3" 0) := by
  decide

/-- C25, amended: for all media contents `a` and `b` with the same non-empty file name
(character by character), if `a.isEquivalent(b)` then `a.getDescription() =
b.getDescription()`. -/
theorem getDescription_of_isEquivalent (toLocaleLowerCase : String → String)
    (numberText : JSNumber → String) (a b : MediaContent) (f : String)
    (ha : a.mediaFileName = some f) (hb : b.mediaFileName = some f) (hf : f ≠ "")
    (h : MediaContent.isEquivalent toLocaleLowerCase a b = .ok true) :
    MediaContent.getDescription numberText a = MediaContent.getDescription numberText b := by
  unfold MediaContent.isEquivalent at h
  by_cases ht : a.mediaType = b.mediaType
  · rw [if_pos ht, ha, hb] at h
    simp only [Except.ok.injEq, Bool.and_eq_true] at h
    obtain ⟨⟨⟨_, h1⟩, h2⟩, _⟩ := h
    have e1 := strictEq_eq _ _ h1
    have e2 := strictEq_eq _ _ h2
    have hn : orNull (some f) = some f := by
      simp [orNull, hf]
    unfold MediaContent.getDescription
    rw [ha, hb, ht, e1, e2, hn]
  · rw [if_neg ht] at h
    simp at h

/-- Witness of `getDescription_of_isEquivalent`: two copies of the audio `bell.mp3`. -/
theorem getDescription_of_isEquivalent_witness :
    MediaContent.isEquivalent sampleLowerCase (bellAudio "bell.mp3" 0) (bellAudio "bell.mp3" 0)
      = .ok true ∧
    MediaContent.getDescription sampleNumberText (bellAudio "bell.mp3" 0)
      = MediaContent.getDescription sampleNumberText (bellAudio "bell.mp3" 0) :=
  ⟨rfl, getDescription_of_isEquivalent sampleLowerCase sampleNumberText
    (bellAudio "bell.mp3" 0) (bellAudio "bell.mp3" 0) "bell.mp3" rfl rfl (by decide) rfl⟩


/-! ## C26: `JClicProject.reportableActs` -/

/-- C26, the code at a failing input. `JClicProject.setProperties` never counts: for every
project, document, path and zip object the call throws, and it leaves `reportableActs` and
`_activities` as they were before the call. On a new project and the sample document, whose
only activity has no `settings` node, the error is the `TypeError` of
`MediaBag.setProperties(null)` and `reportableActs` is 0, while the descriptor that
`Activity.getActivity` builds from the activity node has `includeInReports = true`. -/
theorem reportableActs_not_counted :
    (∀ (U : Externals) (p : JClicProject) (xml : Element) (path : Option String)
        (zip : Option Nat),
      (JClicProject.setProperties U p xml path zip).1.reportableActs = p.reportableActs ∧
      (JClicProject.setProperties U p xml path zip).1._activities = p._activities) ∧
    (JClicProject.setProperties sampleExternals JClicProject.construct bareProjectDocument
        none none).2
      = JSError.typeError "Cannot read properties of null (reading 'children')" ∧
    (JClicProject.setProperties sampleExternals JClicProject.construct bareProjectDocument
        none none).1.reportableActs = 0 ∧
    ((Activity.getActivity sampleExternals sampleSettings Activity.CLASSES Globals.initial
        (some bareActivityNode) (some sampleProject)).toOption.map
      fun r => r.2.map fun act => act.includeInReports) = some (some true) := by
  refine ⟨?_, by decide, by decide, by decide⟩
  intro U p xml path zip
  have hbag : ∀ (q : JClicProject),
      ∃ e, MediaBag.setProperties U.mediaBagElement q.mediaBag (xml.queryArgument "mediaBag")
        = .error e := by
    intro q
    unfold Element.queryArgument
    cases xml.querySelector "mediaBag" <;> exact ⟨_, rfl⟩
  unfold JClicProject.setProperties
  dsimp only
  obtain ⟨e, he⟩ := hbag _
  rw [he]
  cases U.projectSettings (xml.querySelector "settings") <;>
    cases U.activitySequence (xml.querySelector "sequence") <;>
    cases path <;> simp <;> split_ifs <;> simp

/-! ## C27: the loop of `shuffle` -/

/-- C27: for every integer shuffle count `n`, `shuffle` returns (two tests of the loop condition
suffice). For `n > 0` the body runs once: the calls made are one `scrambleCells(n, fitInArea)`
for each non-null bag, in list order, with the `fitInArea` of the caller, null entries being
skipped. For `n ≤ 0` no call is made. The outcome is the same for both values of `visible`. -/
theorem shuffle_runs_once (fuel : Nat) (p : ActivityPanel) (bg : List (Option ActiveBoxBag))
    (visible fitInArea : Bool) (hfuel : 2 ≤ fuel) :
    shuffle fuel p bg visible fitInArea
      = some { p with log := p.log ++
          (if 0 < p.act.shuffles then
            bg.filterMap fun abb =>
              abb.map fun b => Event.scrambleCells b p.act.shuffles fitInArea
          else []) } ∧
    shuffle fuel p bg visible fitInArea = shuffle fuel p bg (!visible) fitInArea := by
  constructor
  · rw [shuffle_eq fuel p bg visible fitInArea hfuel]
    rfl
  · rw [shuffle_eq fuel p bg visible fitInArea hfuel,
      shuffle_eq fuel p bg (!visible) fitInArea hfuel]

/-- Witness of `shuffle_runs_once`: shuffle count 3 on a bag, a null entry and another bag. -/
theorem shuffle_runs_once_witness :
    shuffle 2 (samplePanel 3) [some ⟨0⟩, none, some ⟨1⟩] false true
      = some { samplePanel 3 with log := (samplePanel 3).log ++
          (if 0 < (samplePanel 3).act.shuffles then
            ([some ⟨0⟩, none, some ⟨1⟩] : List (Option ActiveBoxBag)).filterMap fun abb =>
              abb.map fun b => Event.scrambleCells b (samplePanel 3).act.shuffles true
          else []) } :=
  (shuffle_runs_once 2 (samplePanel 3) [some ⟨0⟩, none, some ⟨1⟩] false true (by decide)).1

/-! ## C28: the shared `scramble` object -/

/-- C28, the code at a failing input: `b` is a new activity and sees `scramble.primary` and
`scramble.secondary` true. After another new activity `a` has read a document with
`<scramble times="5" primary="false" secondary="false"/>`, the flags seen by `b`, and by an
activity constructed afterwards, are false: all activities share the `scramble` object of
`Activity.prototype`. -/
theorem scramble_shared_between_activities :
    Activity.scrambleOf Globals.initial (Activity.construct sampleSettings sampleProject)
      = ⟨true, true⟩ ∧
    ((Activity.setProperties sampleExternals sampleSettings Globals.initial
        (Activity.construct sampleSettings sampleProject) scrambledDocument).toOption.map
      fun r =>
        (Activity.scrambleOf r.1 (Activity.construct sampleSettings sampleProject),
         Activity.scrambleOf r.1 (Activity.construct sampleSettings { name := "later" })))
      = some (⟨false, false⟩, ⟨false, false⟩) := by
  decide


end JClic
